import Mathlib

/-
  Verification development for the enka_create-product-list repository.

  The repository consists of near-duplicate Appwrite serverless handlers that
  accept a JSON payload describing an event plus derived product line items and
  write them to a remote store through transactional SDK calls.  We shallowly
  embed each handler as a pure Lean function parameterized by a `Store` oracle
  that decides the outcome of each remote call; every run returns the ordered
  trace of store calls it made together with the HTTP-style response object.

  Variants embedded (names refer to the repository's files):
  - `MainJs`  : src/main.js (document API, single transaction, existence check)
  - `P2`      : the multi-batch TablesDB variant (99 products per transaction,
                rollback ledger with 3 retries per rollback)
  - `P3`      : the single-transaction TablesDB variant with existence check
  - `P4`      : the Databases variant identical to main.js modulo body parsing
  - `P5`      : the single-transaction TablesDB variant without existence check
  - `P0`      : the batch-update handler whose helper references `res` out of
                scope (every path raises a ReferenceError)
  - `P1`      : the batch-update / group-purchase handlers that receive `res`
-/

namespace Enka

/-- Model of a JavaScript/JSON value as manipulated by the handlers. -/
inductive JVal where
  | undefined : JVal
  | null : JVal
  | str (s : String) : JVal
  | num (n : Int) : JVal
  | bool (b : Bool) : JVal
  | arr (xs : List JVal) : JVal
  | obj (fields : List (String × JVal)) : JVal
  deriving Repr

/-- JavaScript truthiness (`!x` is `¬ truthy x`).  Arrays and objects are
always truthy, the empty string and zero are falsy. -/
def JVal.truthy : JVal → Bool
  | .undefined => false
  | .null => false
  | .str s => !s.isEmpty
  | .num n => n != 0
  | .bool b => b
  | .arr _ => true
  | .obj _ => true

/-- JavaScript `x || y`. -/
def jsOr (x y : JVal) : JVal := if x.truthy then x else y

/-- JavaScript string coercion as used in template literals.  Inside
`Array.prototype.toString`, `null`/`undefined` elements print as the empty
string. -/
def JVal.toStr : JVal → String
  | .undefined => "undefined"
  | .null => "null"
  | .str s => s
  | .num n => toString n
  | .bool b => if b then "true" else "false"
  | .arr xs => String.intercalate ","
      (xs.attach.map fun x =>
        match x with
        | ⟨.undefined, _⟩ => ""
        | ⟨.null, _⟩ => ""
        | ⟨v, _⟩ => JVal.toStr v)
  | .obj _ => "[object Object]"
decreasing_by
  all_goals simp_wf
  all_goals rename_i hmem
  all_goals have := List.sizeOf_lt_of_mem hmem
  all_goals omega

/-- Minimal model of `JSON.stringify` (escaping quotes and backslashes;
`undefined` only occurs inside arrays, where JSON renders it as null).
Braces are written with escapes to keep them out of source literals. -/
def jsonStr : JVal → String
  | .undefined => "null"
  | .null => "null"
  | .str s => "\"" ++ ((s.replace "\\" "\\\\").replace "\"" "\\\"") ++ "\""
  | .num n => toString n
  | .bool b => if b then "true" else "false"
  | .arr xs => "[" ++ String.intercalate "," (xs.attach.map fun x => jsonStr x.1) ++ "]"
  | .obj fs => "\x7b" ++
      String.intercalate ","
        (fs.attach.map fun kv => "\"" ++ kv.1.1 ++ "\":" ++ jsonStr kv.1.2) ++ "\x7d"
decreasing_by
  · rename_i x
    have := List.sizeOf_lt_of_mem x.2
    simp_wf
    omega
  · rename_i kv
    obtain ⟨⟨a, b⟩, hmem⟩ := kv
    have := List.sizeOf_lt_of_mem hmem
    simp_wf
    simp only [Prod.mk.sizeOf_spec] at this
    omega

/-- `err.code` may be a number, a string or absent. -/
inductive ErrCode where
  | numCode (n : Int) : ErrCode
  | strCode (s : String) : ErrCode
  | noCode : ErrCode
  deriving Repr, DecidableEq

/-- A thrown JavaScript error as inspected by the handlers. -/
structure JsError where
  message : String
  code : ErrCode
  stack : String := ""
  deriving Repr, DecidableEq

/-- `err.code` placed into a response body. -/
def errCodeJ : ErrCode → JVal
  | .numCode n => .num n
  | .strCode s => .str s
  | .noCode => .undefined

/-- JavaScript `s || default` on an error message. -/
def strOr (s d : String) : String := if s.isEmpty then d else s

/-- A `res.json(body, status)` response. -/
structure Res where
  status : Int
  body : List (String × JVal)
  deriving Repr

/-- Environment constants (values of the required environment variables; the
handlers use them opaquely as identifiers). -/
def DATABASE_ID : String := "DATABASE_ID"

def COLLECTION_MAIN : String := "COLLECTION_MAIN"

def COLLECTION_PRODUCTS : String := "COLLECTION_PRODUCTS"

def COLLECTION_PURCHASES : String := "COLLECTION_PURCHASES"

/-- One input ingredient (fields accessed by the handlers; values are
arbitrary JavaScript values). -/
structure Ingredient where
  ingredientHugoUuid : JVal := .undefined
  ingredientName : JVal := .undefined
  ingType : JVal := .undefined
  totalNeededConsolidated : JVal := .undefined
  totalNeededRaw : JVal := .undefined
  neededConsolidatedByDate : JVal := .undefined
  recipesOccurrences : JVal := .undefined
  pFrais : JVal := .undefined
  pSurgel : JVal := .undefined
  nbRecipes : JVal := .undefined
  totalAssiettes : JVal := .undefined
  conversionRules : JVal := .undefined
  deriving Repr

/-- The `eventData.ingredients` field: absent, present but not an array, or an
array of ingredient objects. -/
inductive IngredientsField where
  | missing : IngredientsField
  | notArray (v : JVal) : IngredientsField
  | array (xs : List Ingredient) : IngredientsField
  deriving Repr

/-- The `eventData` object fields the handlers read. -/
structure EventDataObj where
  name : JVal := .undefined
  allDates : JVal := .undefined
  ingredients : IngredientsField := .missing
  deriving Repr

/-- The `eventData` input: falsy (fails validation) or an object. -/
inductive EventDataField where
  | falsy : EventDataField
  | obj (d : EventDataObj) : EventDataField
  deriving Repr

def EventDataField.truthy : EventDataField → Bool
  | .falsy => false
  | .obj _ => true

/-- Parsed request body for the creation variants. -/
structure RequestInput where
  eventId : JVal
  eventData : EventDataField
  contentHash : JVal
  userId : JVal
  deriving Repr

/-- The shared validation guard
`!eventId || !eventData || !contentHash || !userId`. -/
def missingData (inp : RequestInput) : Bool :=
  !inp.eventId.truthy || !inp.eventData.truthy ||
    !inp.contentHash.truthy || !inp.userId.truthy

/-- The guard `eventData.ingredients && Array.isArray(eventData.ingredients)`:
the ingredient list iff the field holds an array (arrays are truthy). -/
def ingredientsList (inp : RequestInput) : Option (List Ingredient) :=
  match inp.eventData with
  | .falsy => none
  | .obj d =>
    match d.ingredients with
    | .array xs => some xs
    | _ => none

/-- After validation `eventData` is truthy, hence an object. -/
def edObj : EventDataField → EventDataObj
  | .falsy => {}
  | .obj d => d

/-- The parent row payload shared by the creation variants. -/
structure MainDoc where
  name : JVal
  originalDataHash : JVal
  isActive : Bool
  createdBy : JVal
  status : String
  error : JVal
  allDates : JVal
  deriving Repr

def mkMainDoc (eid : String) (d : EventDataObj) (contentHash userId : JVal) : MainDoc :=
  { name := jsOr d.name (.str ("Événement " ++ eid))
    originalDataHash := contentHash
    isActive := true
    createdBy := userId
    status := "active"
    error := .null
    allDates := jsOr d.allDates (.arr []) }

/-- One product row payload. `rowId` is the computed `$id`. -/
structure ProductRow where
  rowId : String
  productHugoUuid : JVal
  productName : JVal
  productType : JVal
  mainId : String
  totalNeededConsolidated : String
  totalNeededRaw : String
  neededConsolidatedByDate : String
  recipesOccurrences : String
  pFrais : JVal
  pSurgel : JVal
  nbRecipes : JVal
  totalAssiettes : JVal
  conversionRules : JVal
  permissions : Option (List String) := none
  deriving Repr

/-- Product row as built by the TablesDB variants (part_002/003/005):
`productHugoUuid: uuid || ''` and `conversionRules || null`, no permissions. -/
def mkProductRowT (eid : String) (ing : Ingredient) : ProductRow :=
  { rowId := ing.ingredientHugoUuid.toStr ++ "_" ++ eid
    productHugoUuid := jsOr ing.ingredientHugoUuid (.str "")
    productName := jsOr ing.ingredientName (.str "")
    productType := jsOr ing.ingType (.str "")
    mainId := eid
    totalNeededConsolidated := jsonStr (jsOr ing.totalNeededConsolidated (.arr []))
    totalNeededRaw := jsonStr (jsOr ing.totalNeededRaw (.arr []))
    neededConsolidatedByDate := jsonStr (jsOr ing.neededConsolidatedByDate (.arr []))
    recipesOccurrences := jsonStr (jsOr ing.recipesOccurrences (.arr []))
    pFrais := jsOr ing.pFrais (.bool false)
    pSurgel := jsOr ing.pSurgel (.bool false)
    nbRecipes := jsOr ing.nbRecipes (.num 0)
    totalAssiettes := jsOr ing.totalAssiettes (.num 0)
    conversionRules := jsOr ing.conversionRules .null }

def userPerms (userId : JVal) : List String :=
  ["read(\"user:" ++ userId.toStr ++ "\")",
   "update(\"user:" ++ userId.toStr ++ "\")",
   "delete(\"user:" ++ userId.toStr ++ "\")"]

/-- Product row as built by the document-API variants (main.js / part_004):
`productHugoUuid: uuid || Math.random().toString(36)` (the `i`-th random
string is drawn from the `rand` stream), no default for `conversionRules`,
and per-user permissions embedded in the row. -/
def mkProductRowDoc (rand : Nat → String) (eid : String) (userId : JVal)
    (i : Nat) (ing : Ingredient) : ProductRow :=
  { rowId := ing.ingredientHugoUuid.toStr ++ "_" ++ eid
    productHugoUuid := jsOr ing.ingredientHugoUuid (.str (rand i))
    productName := jsOr ing.ingredientName (.str "")
    productType := jsOr ing.ingType (.str "")
    mainId := eid
    totalNeededConsolidated := jsonStr (jsOr ing.totalNeededConsolidated (.arr []))
    totalNeededRaw := jsonStr (jsOr ing.totalNeededRaw (.arr []))
    neededConsolidatedByDate := jsonStr (jsOr ing.neededConsolidatedByDate (.arr []))
    recipesOccurrences := jsonStr (jsOr ing.recipesOccurrences (.arr []))
    pFrais := jsOr ing.pFrais (.bool false)
    pSurgel := jsOr ing.pSurgel (.bool false)
    nbRecipes := jsOr ing.nbRecipes (.num 0)
    totalAssiettes := jsOr ing.totalAssiettes (.num 0)
    conversionRules := ing.conversionRules
    permissions := some (userPerms userId) }

/-- Operations staged through `createOperations` in the document-API
variants. -/
inductive OperationDoc where
  | createDoc (databaseId collectionId documentId : String) (data : MainDoc)
      (permissions : List String) : OperationDoc
  | bulkCreate (databaseId collectionId : String) (rows : List ProductRow) : OperationDoc
  deriving Repr

/-- Operations staged by the batch-update / group-purchase handlers. -/
structure OperationTbl where
  action : String
  tableId : String
  rowId : String
  data : List (String × JVal)
  deriving Repr

/-- One remote store call, as recorded in a run's trace.  A failed
`createTransaction` is recorded with `none` (no identifier returned). -/
inductive Call where
  | getDocument (databaseId collectionId documentId : String) : Call
  | createTransaction (result : Option String) : Call
  | createOperationsDoc (transactionId : String) (ops : List OperationDoc) : Call
  | createOperationsTbl (databaseId transactionId : String) (ops : List OperationTbl) : Call
  | createMainRow (databaseId tableId rowId : String) (data : MainDoc)
      (transactionId : String) : Call
  | createProductRow (databaseId tableId : String) (row : ProductRow)
      (transactionId : String) : Call
  | createRows (databaseId tableId : String) (rows : List ProductRow)
      (transactionId : String) : Call
  | commitTxn (transactionId : String) : Call
  | rollbackTxn (transactionId : String) : Call
  deriving Repr

/-- The remote store oracle: outcomes of the sequential remote calls a run
makes.  `newTxn k` answers the `k`-th `createTransaction` call, `stage k` the
`k`-th staging call (row/document/bulk/operations), `commit k` the `k`-th
commit, and `rollback t a` whether attempt `a` of rolling back transaction `t`
succeeds.  `rand`, `uid` and `now` supply `Math.random`, `ID.unique()` and
`new Date().toISOString()`. -/
structure Store where
  getDoc : Except JsError Unit
  newTxn : Nat → Except JsError String
  stage : Nat → Except JsError Unit
  commit : Nat → Except JsError Unit
  rollback : String → Nat → Bool
  rand : Nat → String
  uid : Nat → String
  now : String

/-- A store on which every call succeeds; the `k`-th transaction opened gets
identifier `ids k`, and the existence check reports 404 (absent parent). -/
def happyStore (ids : Nat → String) : Store :=
  { getDoc := .error { message := "Document with the requested ID could not be found.", code := .numCode 404 }
    newTxn := fun k => .ok (ids k)
    stage := fun _ => .ok ()
    commit := fun _ => .ok ()
    rollback := fun _ _ => true
    rand := fun _ => "0.r"
    uid := fun k => "uid" ++ toString k
    now := "2026-01-01T00:00:00.000Z" }

/-- The transaction identifiers a trace records as successfully opened. -/
def openedTxns (cs : List Call) : List String :=
  cs.filterMap fun c =>
    match c with
    | .createTransaction (some t) => some t
    | _ => none

/-- The targets of the rollback calls in a trace, in order. -/
def rbTargets (cs : List Call) : List String :=
  cs.filterMap fun c =>
    match c with
    | .rollbackTxn t => some t
    | _ => none

/-- Whether a trace contains an existence check. -/
def hasGetDoc (cs : List Call) : Bool :=
  cs.any fun c =>
    match c with
    | .getDocument _ _ _ => true
    | _ => false

/-- The slicing loop `for (i = 0; i < n; i += 99) slice(i, i + 99)` yields the
consecutive chunks of at most 99 elements. -/
def chunks99 {α : Type} (l : List α) : List (List α) :=
  match l with
  | [] => []
  | x :: rest => (x :: rest).take 99 :: chunks99 ((x :: rest).drop 99)
termination_by l.length
decreasing_by simp [List.length_drop]; omega

namespace P2

/-- The multi-batch writer of part_002.  Its run state: how many
`createTransaction` calls (`txnIdx`) and staging calls (`rowIdx`) were made,
the `allTransactions` rollback ledger, and the trace of store calls. -/
structure MBSt where
  txnIdx : Nat
  rowIdx : Nat
  ledger : List String
  trace : List Call
  deriving Repr

/-- The inner `for (const ingredient of transactionIngredients)` loop: one
`createRow` per ingredient against the current products transaction `t`. -/
def mbRows (store : Store) (eid t : String) (st : MBSt) :
    List Ingredient → Except (MBSt × JsError) MBSt
  | [] => .ok st
  | ing :: rest =>
    let row := mkProductRowT eid ing
    let st1 : MBSt := { st with
      rowIdx := st.rowIdx + 1,
      trace := st.trace ++ [.createProductRow DATABASE_ID COLLECTION_PRODUCTS row t] }
    match store.stage st.rowIdx with
    | .error e => .error (st1, e)
    | .ok _ => mbRows store eid t st1 rest

/-- The outer batch loop: for each chunk, create a transaction, record it in
the ledger, create its rows, then commit it before the next chunk. -/
def mbBatches (store : Store) (eid : String) (st : MBSt) :
    List (List Ingredient) → Except (MBSt × JsError) MBSt
  | [] => .ok st
  | chunk :: rest =>
    match store.newTxn st.txnIdx with
    | .error e =>
      .error ({ st with
        txnIdx := st.txnIdx + 1,
        trace := st.trace ++ [.createTransaction none] }, e)
    | .ok t =>
      let st1 : MBSt := { st with
        txnIdx := st.txnIdx + 1,
        ledger := st.ledger ++ [t],
        trace := st.trace ++ [.createTransaction (some t)] }
      match mbRows store eid t st1 chunk with
      | .error p => .error p
      | .ok st2 =>
        match store.commit st.txnIdx with
        | .error e => .error ({ st2 with trace := st2.trace ++ [.commitTxn t] }, e)
        | .ok _ => mbBatches store eid { st2 with trace := st2.trace ++ [.commitTxn t] } rest

/-- The `try` block of part_002 after validation: parent transaction (create,
row, commit), then the product batches. -/
def mbMain (store : Store) (inp : RequestInput) : Except (MBSt × JsError) MBSt :=
  let eid := inp.eventId.toStr
  match store.newTxn 0 with
  | .error e => .error (⟨1, 0, [], [.createTransaction none]⟩, e)
  | .ok t0 =>
    let doc := mkMainDoc eid (edObj inp.eventData) inp.contentHash inp.userId
    let st1 : MBSt := ⟨1, 1, [t0],
      [.createTransaction (some t0), .createMainRow DATABASE_ID COLLECTION_MAIN eid doc t0]⟩
    match store.stage 0 with
    | .error e => .error (st1, e)
    | .ok _ =>
      let st2 : MBSt := ⟨1, 1, [t0],
        [.createTransaction (some t0), .createMainRow DATABASE_ID COLLECTION_MAIN eid doc t0,
         .commitTxn t0]⟩
      match store.commit 0 with
      | .error e => .error (st2, e)
      | .ok _ =>
        match ingredientsList inp with
        | none => .ok st2
        | some xs => mbBatches store eid st2 (chunks99 xs)

/-- Per-transaction rollback retry loop: up to 3 attempts, stopping at the
first success; the exhaustion error is rethrown and swallowed by the
per-transaction handler. -/
def rollbackLoop (rb : String → Nat → Bool) (t : String) (attempt : Nat) : List Call :=
  if attempt < 3 then
    Call.rollbackTxn t :: (if rb t attempt then [] else rollbackLoop rb t (attempt + 1))
  else []
termination_by 3 - attempt

/-- Outcome of one run of part_002: the store-call trace, the response, the
original error caught (if any) and the final rollback ledger. -/
structure MBRun where
  calls : List Call
  res : Res
  caught : Option JsError
  ledger : List String
  deriving Repr

def res400 : Res :=
  ⟨400, [("error", .str "Données manquantes: eventId, eventData, contentHash, userId requis")]⟩

def resConflict : Res :=
  ⟨409, [("error", .str "Conflit détecté: un ou plusieurs documents existent déjà"),
         ("code", .str "conflict")]⟩

/-- The catch handler of part_002: best-effort rollback over the ledger, then
the response mapped from the original error. -/
def mbCatch (store : Store) (st : MBSt) (e : JsError) : MBRun :=
  let rbCalls : List Call :=
    if st.ledger.length > 0 then st.ledger.flatMap (fun t => rollbackLoop store.rollback t 0)
    else []
  let res : Res :=
    if e.code = .numCode 409 ∨ e.code = .strCode "document_already_exists" then resConflict
    else
      ⟨500, [("error", .str (strOr e.message "Erreur interne du serveur")),
             ("code", errCodeJ e.code),
             ("rolledBack", .bool (decide (0 < st.ledger.length))),
             ("transactionsCount", .num st.ledger.length)]⟩
  ⟨st.trace ++ rbCalls, res, some e, st.ledger⟩

/-- part_002's default export (multi-transaction createProductsList). -/
def createProductsList (store : Store) (inp : RequestInput) : MBRun :=
  if missingData inp then ⟨[], res400, none, []⟩
  else
    match mbMain store inp with
    | .error (st, e) => mbCatch store st e
    | .ok st =>
      ⟨st.trace,
       ⟨200, [("success", .bool true),
              ("eventId", inp.eventId),
              ("totalTransactions", .num st.ledger.length),
              ("transactionIds", .arr (st.ledger.map .str)),
              ("message", .str "Liste de produits créée avec succès (multi-transactions validées)")]⟩,
       none, st.ledger⟩

end P2

/-- JavaScript property access `v.k` (undefined on non-objects or missing
keys; the handlers only dereference validated-truthy values). -/
def objGet (v : JVal) (k : String) : JVal :=
  match v with
  | .obj fs => (fs.lookup k).getD .undefined
  | _ => .undefined

/-- JavaScript strict equality `===` as used on the primitive values the
handlers compare (identifiers are strings); distinct object/array references
compare unequal. -/
def jsEq : JVal → JVal → Bool
  | .str s, .str t => s = t
  | .num m, .num n => m = n
  | .bool a, .bool b => a = b
  | .null, .null => true
  | .undefined, .undefined => true
  | _, _ => false

/-- JavaScript object spread `{...base, ...upd}`: base keys in order with
overriding values from `upd`, then the new keys of `upd`. -/
def spreadMerge (base upd : List (String × JVal)) : List (String × JVal) :=
  (base.map fun kv =>
    match upd.lookup kv.1 with
    | some v => (kv.1, v)
    | none => kv) ++
    upd.filter fun kv => (base.lookup kv.1).isNone

/-- Truthiness of `v?.length` (arrays and strings have numeric lengths;
other primitives yield undefined). -/
def lenTruthy : JVal → Bool
  | .arr xs => !xs.isEmpty
  | .str s => !s.isEmpty
  | .obj fs => ((fs.lookup "length").getD .undefined).truthy
  | _ => false

/-- `v.length` where it is a number (arrays and strings); `none` models
undefined, for which `undefined > cap` is false. -/
def capLen : JVal → Option Int
  | .arr xs => some xs.length
  | .str s => some s.length
  | _ => none

/-- `v.length > 100`. -/
def exceedsCap (v : JVal) : Bool :=
  match capLen v with
  | some n => n > 100
  | none => false

/-- The slicing loop with a batch size of 100 (part_005). -/
def chunks100 {α : Type} (l : List α) : List (List α) :=
  match l with
  | [] => []
  | x :: rest => (x :: rest).take 100 :: chunks100 ((x :: rest).drop 100)
termination_by l.length
decreasing_by simp [List.length_drop]; omega

/-- Trace and response of one run of a handler without rollback bookkeeping. -/
structure Run where
  calls : List Call
  res : Res
  deriving Repr

/-- Trace, response, caught original error and transaction identifier of one
run of a single-transaction variant. -/
structure TRun where
  calls : List Call
  res : Res
  caught : Option JsError
  txn : Option String
  deriving Repr

def resAlreadyExists : Res :=
  ⟨409, [("error", .str "Cet événement existe déjà"), ("code", .str "already_exists")]⟩

namespace MainJs

/-- The operations array staged by src/main.js: one `create` for the parent
document, then one `bulkCreate` with every product row iff
`eventData.ingredients` is an array. -/
def operations (store : Store) (inp : RequestInput) (eid : String) : List OperationDoc :=
  [.createDoc DATABASE_ID COLLECTION_MAIN eid
      (mkMainDoc eid (edObj inp.eventData) inp.contentHash inp.userId)
      (userPerms inp.userId)] ++
    match ingredientsList inp with
    | some xs =>
      [.bulkCreate DATABASE_ID COLLECTION_PRODUCTS
        (xs.enum.map fun p => mkProductRowDoc store.rand eid inp.userId p.1 p.2)]
    | none => []

/-- The catch block of src/main.js: `conflict` → 409,
`transaction_limit_exceeded` → 429, anything else → 500 with the message,
code and stack surfaced.  No rollback is attempted. -/
def mainCatch (calls : List Call) (e : JsError) : Run :=
  if e.code = .strCode "conflict" then
    ⟨calls, ⟨409, [("error", .str "Conflit détecté: les données ont été modifiées par une autre opération"),
                   ("code", .str "conflict")]⟩⟩
  else if e.code = .strCode "transaction_limit_exceeded" then
    ⟨calls, ⟨429, [("error", .str "Limite de transactions dépassée. Veuillez réduire le nombre d'ingrédients"),
                   ("code", .str "transaction_limit_exceeded")]⟩⟩
  else
    ⟨calls, ⟨500, [("error", .str (strOr e.message "Erreur interne du serveur")),
                   ("code", errCodeJ e.code),
                   ("stack", .str e.stack)]⟩⟩

/-- src/main.js `createProductsList`: validation, existence check, one
transaction, one `createOperations` call, one commit. -/
def createProductsList (store : Store) (inp : RequestInput) : Run :=
  if missingData inp then ⟨[], P2.res400⟩
  else
    let eid := inp.eventId.toStr
    let c0 : List Call := [.getDocument DATABASE_ID COLLECTION_MAIN eid]
    match store.getDoc with
    | .ok _ => ⟨c0, resAlreadyExists⟩
    | .error ge =>
      if ge.code = .numCode 404 then
        match store.newTxn 0 with
        | .error e => mainCatch (c0 ++ [.createTransaction none]) e
        | .ok t =>
          let c1 := c0 ++ [.createTransaction (some t),
            .createOperationsDoc t (operations store inp eid)]
          match store.stage 0 with
          | .error e => mainCatch c1 e
          | .ok _ =>
            match store.commit 0 with
            | .error e => mainCatch (c1 ++ [.commitTxn t]) e
            | .ok _ =>
              ⟨c1 ++ [.commitTxn t],
               ⟨200, [("success", .bool true), ("eventId", inp.eventId),
                      ("message", .str "Liste de produits créée avec succès")]⟩⟩
      else mainCatch c0 ge

end MainJs

namespace P4

/-- part_004's catch block: like main.js but the 500 body has no stack
field. -/
def p4Catch (calls : List Call) (e : JsError) : Run :=
  if e.code = .strCode "conflict" then
    ⟨calls, ⟨409, [("error", .str "Conflit détecté: les données ont été modifiées par une autre opération"),
                   ("code", .str "conflict")]⟩⟩
  else if e.code = .strCode "transaction_limit_exceeded" then
    ⟨calls, ⟨429, [("error", .str "Limite de transactions dépassée. Veuillez réduire le nombre d'ingrédients"),
                   ("code", .str "transaction_limit_exceeded")]⟩⟩
  else
    ⟨calls, ⟨500, [("error", .str (strOr e.message "Erreur interne du serveur")),
                   ("code", errCodeJ e.code)]⟩⟩

/-- part_004 `createProductsList` (identical to src/main.js up to body
parsing and the catch body). -/
def createProductsList (store : Store) (inp : RequestInput) : Run :=
  if missingData inp then ⟨[], P2.res400⟩
  else
    let eid := inp.eventId.toStr
    let c0 : List Call := [.getDocument DATABASE_ID COLLECTION_MAIN eid]
    match store.getDoc with
    | .ok _ => ⟨c0, resAlreadyExists⟩
    | .error ge =>
      if ge.code = .numCode 404 then
        match store.newTxn 0 with
        | .error e => p4Catch (c0 ++ [.createTransaction none]) e
        | .ok t =>
          let c1 := c0 ++ [.createTransaction (some t),
            .createOperationsDoc t (MainJs.operations store inp eid)]
          match store.stage 0 with
          | .error e => p4Catch c1 e
          | .ok _ =>
            match store.commit 0 with
            | .error e => p4Catch (c1 ++ [.commitTxn t]) e
            | .ok _ =>
              ⟨c1 ++ [.commitTxn t],
               ⟨200, [("success", .bool true), ("eventId", inp.eventId),
                      ("message", .str "Liste de produits créée avec succès")]⟩⟩
      else p4Catch c0 ge

end P4

namespace P3

/-- The response built by part_003's catch block: 409 on store-reported
duplicates, else 500 with the original error and `rolledBack: !!transactionId`. -/
def catchRes (txn : Option String) (e : JsError) : Res :=
  if e.code = .numCode 409 ∨ e.code = .strCode "document_already_exists" then P2.resConflict
  else
    ⟨500, [("error", .str (strOr e.message "Erreur interne du serveur")),
           ("code", errCodeJ e.code),
           ("rolledBack", .bool txn.isSome)]⟩

/-- part_003's catch block.  Its rollback attempt references `databases`,
a `const` declared inside the try block and therefore out of scope in the
catch: the attempt raises a ReferenceError locally, which the rollback's own
catch swallows — no rollback call ever reaches the store.  Only the mapped
response is produced. -/
def p3Catch (txn : Option String) (calls : List Call) (e : JsError) : TRun :=
  ⟨calls, catchRes txn e, some e, txn⟩

/-- The commit step and success response of part_003. -/
def p3Finish (store : Store) (inp : RequestInput) (t : String) (calls : List Call) : TRun :=
  match store.commit 0 with
  | .error e => p3Catch (some t) (calls ++ [.commitTxn t]) e
  | .ok _ =>
    ⟨calls ++ [.commitTxn t],
     ⟨200, [("success", .bool true), ("eventId", inp.eventId),
            ("transactionId", .str t),
            ("message", .str "Liste de produits créée avec succès (transaction validée)")]⟩,
     none, some t⟩

/-- part_003 `createProductsList`: validation, existence check, one
transaction, parent `createDocument`, bulk `createRows`, commit. -/
def createProductsList (store : Store) (inp : RequestInput) : TRun :=
  if missingData inp then ⟨[], P2.res400, none, none⟩
  else
    let eid := inp.eventId.toStr
    let c0 : List Call := [.getDocument DATABASE_ID COLLECTION_MAIN eid]
    match store.getDoc with
    | .ok _ => ⟨c0, resAlreadyExists, none, none⟩
    | .error ge =>
      if ge.code = .numCode 404 then
        match store.newTxn 0 with
        | .error e => p3Catch none (c0 ++ [.createTransaction none]) e
        | .ok t =>
          let c1 := c0 ++ [.createTransaction (some t),
            .createMainRow DATABASE_ID COLLECTION_MAIN eid
              (mkMainDoc eid (edObj inp.eventData) inp.contentHash inp.userId) t]
          match store.stage 0 with
          | .error e => p3Catch (some t) c1 e
          | .ok _ =>
            match ingredientsList inp with
            | some xs =>
              let rows := xs.map (mkProductRowT eid)
              let c2 := c1 ++ [.createRows DATABASE_ID COLLECTION_PRODUCTS rows t]
              match store.stage 1 with
              | .error e => p3Catch (some t) c2 e
              | .ok _ => p3Finish store inp t c2
            | none => p3Finish store inp t c1
      else p3Catch none c0 ge

end P3

namespace P5

/-- part_005's parent row: `allDates` is JSON-stringified. -/
def mkMainDoc5 (eid : String) (d : EventDataObj) (contentHash userId : JVal) : MainDoc :=
  { name := jsOr d.name (.str ("Événement " ++ eid))
    originalDataHash := contentHash
    isActive := true
    createdBy := userId
    status := "active"
    error := .null
    allDates := .str (jsonStr (jsOr d.allDates (.arr []))) }

/-- part_005's catch: the rollback attempt invokes the non-existent static
`TablesDB.updateTransaction` and so raises a TypeError that is caught and
logged before any remote call is made — no rollback call ever reaches the
store.  The response mirrors part_003's. -/
def p5Catch (txn : Option String) (calls : List Call) (e : JsError) : TRun :=
  ⟨calls, P3.catchRes txn e, some e, txn⟩

/-- part_005's row loop: batches of 100 within the same transaction, one
`createRow` per product. -/
def p5Batches (store : Store) (eid t : String) (st : P2.MBSt) :
    List (List Ingredient) → Except (P2.MBSt × JsError) P2.MBSt
  | [] => .ok st
  | chunk :: rest =>
    match P2.mbRows store eid t st chunk with
    | .error p => .error p
    | .ok st1 => p5Batches store eid t st1 rest

def p5Finish (store : Store) (inp : RequestInput) (t : String) (calls : List Call) : TRun :=
  match store.commit 0 with
  | .error e => p5Catch (some t) (calls ++ [.commitTxn t]) e
  | .ok _ =>
    ⟨calls ++ [.commitTxn t],
     ⟨200, [("success", .bool true), ("eventId", inp.eventId),
            ("transactionId", .str t),
            ("message", .str "Liste de produits créée avec succès (transaction validée)")]⟩,
     none, some t⟩

/-- part_005 `createProductsList`: no existence check, one transaction, one
`createRow` per product in batches of 100, one commit. -/
def createProductsList (store : Store) (inp : RequestInput) : TRun :=
  if missingData inp then ⟨[], P2.res400, none, none⟩
  else
    let eid := inp.eventId.toStr
    match store.newTxn 0 with
    | .error e => p5Catch none [.createTransaction none] e
    | .ok t =>
      let c1 : List Call := [.createTransaction (some t),
        .createMainRow DATABASE_ID COLLECTION_MAIN eid
          (mkMainDoc5 eid (edObj inp.eventData) inp.contentHash inp.userId) t]
      match store.stage 0 with
      | .error e => p5Catch (some t) c1 e
      | .ok _ =>
        match ingredientsList inp with
        | none => p5Finish store inp t c1
        | some xs =>
          match p5Batches store eid t ⟨1, 1, [t], c1⟩ (chunks100 xs) with
          | .error (st, e) => p5Catch (some t) st.trace e
          | .ok st => p5Finish store inp t st.trace

end P5

/-- Parsed `data` envelope of the `batchUpdateProducts` operation. -/
structure BatchUpdateData where
  productIds : JVal := .undefined
  products : JVal := .undefined
  updateType : JVal := .undefined
  updateData : JVal := .undefined
  options : JVal := .undefined
  deriving Repr

/-- `!productIds?.length || !updateType || !updateData`. -/
def buMissing (d : BatchUpdateData) : Bool :=
  !lenTruthy d.productIds || !d.updateType.truthy || !d.updateData.truthy

namespace P0

/-- The ReferenceError raised by every `res.json(...)` inside part_000's
`handleBatchUpdateProducts`, which does not receive `res`. -/
def refErrRes : JsError := ⟨"res is not defined", .noCode, ""⟩

/-- part_000's `prepareUpdatePayload`: `store` and `who` updates build small
objects, `stock` stringifies a dated entry (`quantity.toString()` throws on a
nullish quantity), anything else throws. -/
def prepareUpdatePayload (now : String) (updateType updateData options : JVal) :
    Except JsError (List (String × JVal)) :=
  match updateType with
  | .str "store" => .ok [("store", .str (jsonStr updateData))]
  | .str "who" =>
    if jsEq (objGet options "mode") (.str "add") then .ok [("who", objGet updateData "names")]
    else .ok [("who", objGet updateData "names")]
  | .str "stock" =>
    match objGet updateData "quantity" with
    | .undefined => .error ⟨"Cannot read properties of undefined (reading 'toString')", .noCode, ""⟩
    | .null => .error ⟨"Cannot read properties of null (reading 'toString')", .noCode, ""⟩
    | q =>
      .ok [("stockReel", .str (jsonStr (.arr [.obj
        [("quantity", .str q.toStr),
         ("unit", objGet updateData "unit"),
         ("notes", jsOr (objGet updateData "notes") (.str "")),
         ("dateTime", .str now)]])))]
  | t => .error ⟨"Unsupported update type: " ++ t.toStr, .noCode, ""⟩

/-- part_000 `handleBatchUpdateProducts`.  Every `res.json` raises a
ReferenceError (`res` is out of scope).  Inside the inner catch the rollback
references the likewise out-of-scope `transaction`, whose ReferenceError the
rollback's own catch swallows; the final `res.json` then raises again.  So
every path ends in the `res is not defined` error with no response sent. -/
def handleBatchUpdateProducts (store : Store) (d : BatchUpdateData) :
    List Call × Except JsError Res :=
  if buMissing d then ([], .error refErrRes)
  else if exceedsCap d.productIds then ([], .error refErrRes)
  else
    match store.newTxn 0 with
    | .error _ => ([.createTransaction none], .error refErrRes)
    | .ok t =>
      match d.productIds with
      | .arr ids =>
        match ids.mapM (fun pid =>
          (prepareUpdatePayload store.now d.updateType d.updateData d.options).map
            fun payload => OperationTbl.mk "update" COLLECTION_PRODUCTS pid.toStr payload) with
        | .error _ => ([.createTransaction (some t)], .error refErrRes)
        | .ok ops =>
          let c1 : List Call := [.createTransaction (some t),
            .createOperationsTbl DATABASE_ID t ops]
          match store.stage 0 with
          | .error _ => (c1, .error refErrRes)
          | .ok _ =>
            match store.commit 0 with
            | .error _ => (c1 ++ [.commitTxn t], .error refErrRes)
            | .ok _ => (c1 ++ [.commitTxn t], .error refErrRes)
      | _ => ([.createTransaction (some t)], .error refErrRes)

/-- part_000's default export: dispatch on `operation`; any error thrown by a
handler is caught and surfaced as a 500 with its message. -/
def mainHandler (store : Store) (operation : JVal) (d : BatchUpdateData) : Run :=
  match operation with
  | .str "batchUpdateProducts" =>
    match handleBatchUpdateProducts store d with
    | (calls, .ok r) => ⟨calls, r⟩
    | (calls, .error e) => ⟨calls, ⟨500, [("error", .str e.message)]⟩⟩
  | _ => ⟨[], ⟨400, [("error", .str "Unknown operation")]⟩⟩

end P0

/-- `transformProductToAppwrite` (part_001 / part_002's second handler):
business fields of the enriched product with batch updates spread on top. -/
def transformProductToAppwrite (product : JVal) (batchUpdates : List (String × JVal)) :
    List (String × JVal) :=
  spreadMerge
    [("productHugoUuid", objGet product "productHugoUuid"),
     ("productName", objGet product "productName"),
     ("mainId", objGet product "mainId"),
     ("status", jsOr (objGet product "status") .null),
     ("who", jsOr (objGet product "who") .null),
     ("store", jsOr (objGet product "store") .null),
     ("stockReel", jsOr (objGet product "stockReel") .null),
     ("previousNames", jsOr (objGet product "previousNames") .null),
     ("isMerged", jsOr (objGet product "isMerged") (.bool false)),
     ("mergedFrom", jsOr (objGet product "mergedFrom") .null),
     ("mergeDate", jsOr (objGet product "mergeDate") .null),
     ("mergeReason", jsOr (objGet product "mergeReason") .null),
     ("mergedInto", jsOr (objGet product "mergedInto") .null),
     ("totalNeededOverride", jsOr (objGet product "totalNeededOverride") .null)]
    batchUpdates

/-- `prepareBatchUpdates` (part_001): `store` and `who` only. -/
def prepareBatchUpdates (updateType updateData options : JVal) :
    Except JsError (List (String × JVal)) :=
  match updateType with
  | .str "store" => .ok [("store", .str (jsonStr updateData))]
  | .str "who" =>
    if jsEq (objGet options "mode") (.str "add") then .ok [("who", objGet updateData "names")]
    else .ok [("who", objGet updateData "names")]
  | t => .error ⟨"Unsupported update type: " ++ t.toStr, .noCode, ""⟩

namespace P1

/-- `productIds.length` as surfaced in part_001's responses. -/
def idsLen (v : JVal) : Int := (capLen v).getD 0

/-- part_001 `handleBatchUpdateProducts` catch: one rollback attempt on the
recorded transaction (outcome only logged), then a 500 with the original
error's message. -/
def p1Catch (txn : Option String) (calls : List Call) (e : JsError)
    (d : BatchUpdateData) : Run :=
  let rbCalls : List Call :=
    match txn with
    | some t => [.rollbackTxn t]
    | none => []
  ⟨calls ++ rbCalls,
   ⟨500, [("success", .bool false), ("error", .str e.message),
          ("productIds", .num (idsLen d.productIds))]⟩⟩

/-- The per-product operation of part_001's batch update: look the product up
by `$id`, apply the batch updates, choose update/create by `isSynced`, and
force the local `$id`. -/
def buildOp (d : BatchUpdateData) (pid : JVal) : Except JsError OperationTbl :=
  match d.products with
  | .arr ps =>
    match ps.find? (fun p => jsEq (objGet p "$id") pid) with
    | none => .error ⟨"Product " ++ pid.toStr ++ " not found in products data", .noCode, ""⟩
    | some p =>
      (prepareBatchUpdates d.updateType d.updateData d.options).map fun batchUpdates =>
        let appwriteData := transformProductToAppwrite p batchUpdates
        { action := if jsEq (objGet p "isSynced") (.bool true) then "update" else "create"
          tableId := COLLECTION_PRODUCTS
          rowId := pid.toStr
          data := ("$id", pid) :: appwriteData }
  | _ => .error ⟨"Cannot read properties of undefined (reading 'find')", .noCode, ""⟩

/-- part_001 `handleBatchUpdateProducts`: validation and the local
`maxOperations = 100` cap check answer 400 before any remote call; then one
transaction, one `createOperations`, one commit. -/
def handleBatchUpdateProducts (store : Store) (d : BatchUpdateData) : Run :=
  if buMissing d then
    ⟨[], ⟨400, [("error", .str "Missing required parameters: productIds, updateType, updateData")]⟩⟩
  else if exceedsCap d.productIds then
    ⟨[], ⟨400, [("error", .str "Too many products. Maximum 100 operations per transaction")]⟩⟩
  else
    match store.newTxn 0 with
    | .error e => p1Catch none [.createTransaction none] e d
    | .ok t =>
      match d.productIds with
      | .arr ids =>
        match ids.mapM (buildOp d) with
        | .error e => p1Catch (some t) [.createTransaction (some t)] e d
        | .ok ops =>
          let c1 : List Call := [.createTransaction (some t),
            .createOperationsTbl DATABASE_ID t ops]
          match store.stage 0 with
          | .error e => p1Catch (some t) c1 e d
          | .ok _ =>
            match store.commit 0 with
            | .error e => p1Catch (some t) (c1 ++ [.commitTxn t]) e d
            | .ok _ =>
              ⟨c1 ++ [.commitTxn t],
               ⟨200, [("success", .bool true), ("transactionId", .str t),
                      ("updatedCount", .num ids.length),
                      ("updateType", d.updateType),
                      ("timestamp", .str store.now)]⟩⟩
      | _ => p1Catch (some t) [.createTransaction (some t)]
          ⟨"productIds.map is not a function", .noCode, ""⟩ d

end P1

/-- Parsed `data` envelope of the `createGroupPurchaseWithSync` operation. -/
structure GPData where
  mainId : JVal := .undefined
  batchData : JVal := .undefined
  invoiceData : JVal := .undefined
  deriving Repr

namespace GP

/-- `batchData.productsToCreate` with its `= []` destructuring default. -/
def listField (batchData : JVal) (k : String) : JVal :=
  match objGet batchData k with
  | .undefined => .arr []
  | v => v

/-- One purchase-creation operation (rowId drawn from the `ID.unique()`
stream). -/
def purchaseOp (store : Store) (d : GPData) (k : Nat) (purchase : JVal) : OperationTbl :=
  { action := "create"
    tableId := COLLECTION_PURCHASES
    rowId := store.uid k
    data :=
      [("products", .arr [objGet purchase "productId"]),
       ("mainId", d.mainId),
       ("quantity", objGet purchase "quantity"),
       ("unit", objGet purchase "unit"),
       ("status", jsOr (objGet purchase "status") (.str "delivered")),
       ("notes", jsOr (objGet purchase "notes") (.str "")),
       ("store", jsOr (objGet d.invoiceData "store") .null),
       ("who", jsOr (objGet purchase "who") .null),
       ("price", .null),
       ("invoiceId", objGet d.invoiceData "invoiceId"),
       ("invoiceTotal", .null),
       ("orderDate", jsOr (objGet purchase "orderDate") .null),
       ("deliveryDate", jsOr (objGet purchase "deliveryDate") .null),
       ("createdBy", jsOr (objGet purchase "createdBy") .null)] }

/-- One product-creation operation. -/
def productOp (_d : GPData) (product : JVal) : OperationTbl :=
  { action := "create"
    tableId := COLLECTION_PRODUCTS
    rowId := (objGet product "productId").toStr
    data := ("$id", objGet product "productId") ::
      transformProductToAppwrite (objGet product "productData") [] }

/-- The global-expense operation staged in its own transaction when
`invoiceData.invoiceTotal` is truthy. -/
def expenseOp (store : Store) (d : GPData) (nPurchases : Nat) : OperationTbl :=
  { action := "create"
    tableId := COLLECTION_PURCHASES
    rowId := store.uid nPurchases
    data :=
      [("products", .arr []),
       ("mainId", d.mainId),
       ("quantity", .num 1),
       ("unit", .str "global"),
       ("status", .str "expense"),
       ("notes", jsOr (objGet d.invoiceData "notes")
          (.str ("Facture globale pour " ++ toString nPurchases ++ " produits"))),
       ("store", jsOr (objGet d.invoiceData "store") .null),
       ("who", jsOr (objGet d.invoiceData "who") .null),
       ("price", .null),
       ("invoiceId", objGet d.invoiceData "invoiceId"),
       ("invoiceTotal", objGet d.invoiceData "invoiceTotal"),
       ("orderDate", .null),
       ("deliveryDate", .null),
       ("createdBy", .null)] }

/-- gpCatch: one rollback attempt on the recorded transaction (errors only
logged), then 500 with the original error's message. -/
def gpCatch (txn : Option String) (calls : List Call) (e : JsError) (total : Int) : Run :=
  let rbCalls : List Call :=
    match txn with
    | some t => [.rollbackTxn t]
    | none => []
  ⟨calls ++ rbCalls,
   ⟨500, [("success", .bool false), ("error", .str e.message),
          ("totalOperations", .num total)]⟩⟩

/-- The separate expense transaction: any failure inside it is swallowed
(`expenseCreated: false`), the main result stands. -/
def expensePhase (store : Store) (d : GPData) (nPurchases : Nat) : List Call × Bool :=
  if (objGet d.invoiceData "invoiceTotal").truthy then
    match store.newTxn 1 with
    | .error _ => ([.createTransaction none], false)
    | .ok t2 =>
      let c : List Call := [.createTransaction (some t2),
        .createOperationsTbl DATABASE_ID t2 [expenseOp store d nPurchases]]
      match store.stage 1 with
      | .error _ => (c, false)
      | .ok _ =>
        match store.commit 1 with
        | .error _ => (c ++ [.commitTxn t2], false)
        | .ok _ => (c ++ [.commitTxn t2], true)
  else ([], false)

/-- part_001 `handleCreateGroupPurchaseWithSync`: validation and the local
total-operation cap check (100) answer 400 before any remote call; then one
transaction with product and purchase creations, a commit, and an optional
separate expense transaction.  The model's inputs carry arrays (or nothing)
in `batchData`'s two list fields, the only shapes the caller sends. -/
def handleCreateGroupPurchaseWithSync (store : Store) (d : GPData) : Run :=
  if !d.mainId.truthy || !d.batchData.truthy || !d.invoiceData.truthy then
    ⟨[], ⟨400, [("error", .str "Missing required parameters: mainId, batchData, invoiceData")]⟩⟩
  else
    match listField d.batchData "productsToCreate", listField d.batchData "purchasesToCreate" with
    | .arr products, .arr purchases =>
      let total : Int := products.length + purchases.length
      if total > 100 then
        ⟨[], ⟨400, [("error", .str ("Too many operations (" ++ toString total ++
          "). Maximum 100 operations per transaction"))]⟩⟩
      else if !(objGet d.invoiceData "invoiceId").truthy then
        ⟨[], ⟨400, [("error", .str "invoiceId is required in invoiceData")]⟩⟩
      else
        match store.newTxn 0 with
        | .error e => gpCatch none [.createTransaction none] e total
        | .ok t =>
          let ops := products.map (productOp d) ++
            purchases.enum.map fun q => purchaseOp store d q.1 q.2
          let c1 : List Call := [.createTransaction (some t),
            .createOperationsTbl DATABASE_ID t ops]
          match store.stage 0 with
          | .error e => gpCatch (some t) c1 e total
          | .ok _ =>
            match store.commit 0 with
            | .error e => gpCatch (some t) (c1 ++ [.commitTxn t]) e total
            | .ok _ =>
              let expense := expensePhase store d purchases.length
              ⟨c1 ++ [.commitTxn t] ++ expense.1,
               ⟨200, [("success", .bool true), ("transactionId", .str t),
                      ("productsCreated", .num products.length),
                      ("purchasesCreated", .num purchases.length),
                      ("expenseCreated", .bool expense.2),
                      ("totalOperations", .num total),
                      ("invoiceId", objGet d.invoiceData "invoiceId"),
                      ("timestamp", .str store.now)]⟩⟩
    | _, _ =>
      ⟨[], ⟨500, [("error", .str "batchData lists must be arrays")]⟩⟩

end GP

/-! ## Lemmas about the multi-batch writer (part_002) -/

theorem chunks99_nil {α : Type} : chunks99 ([] : List α) = [] := by
  simp [chunks99]

theorem chunks99_cons {α : Type} (x : α) (rest : List α) :
    chunks99 (x :: rest) = (x :: rest).take 99 :: chunks99 ((x :: rest).drop 99) := by
  rw [chunks99]

/-- Number of 99-chunks: `⌈n / 99⌉`. -/
theorem chunks99_length {α : Type} : ∀ (n : Nat) (l : List α), l.length ≤ n →
    (chunks99 l).length = (l.length + 98) / 99 := by
  intro n
  induction n with
  | zero =>
    intro l hl
    have : l = [] := by
      cases l with
      | nil => rfl
      | cons x rest => simp at hl
    subst this
    simp [chunks99_nil]
  | succ n ih =>
    intro l hl
    cases l with
    | nil => simp [chunks99_nil]
    | cons x rest =>
      rw [chunks99_cons]
      have hrec := ih ((x :: rest).drop 99) (by simp [List.length_drop] at *; omega)
      simp only [List.length_cons, List.length_drop] at hrec ⊢
      rw [hrec]
      omega

/-- Canonical trace of the product-batch loop on an all-success store: for
each chunk, open the `k`-th transaction, create its rows, commit it, and only
then move to the next chunk. -/
def mbCanon (ids : Nat → String) (eid : String) : Nat → List (List Ingredient) → List Call
  | _, [] => []
  | k, c :: cs =>
    .createTransaction (some (ids k)) ::
      ((c.map fun ing =>
          .createProductRow DATABASE_ID COLLECTION_PRODUCTS (mkProductRowT eid ing) (ids k)) ++
        .commitTxn (ids k) :: mbCanon ids eid (k + 1) cs)

theorem happyStore_newTxn (ids : Nat → String) (k : Nat) :
    (happyStore ids).newTxn k = .ok (ids k) := rfl

theorem happyStore_stage (ids : Nat → String) (k : Nat) :
    (happyStore ids).stage k = .ok () := rfl

theorem happyStore_commit (ids : Nat → String) (k : Nat) :
    (happyStore ids).commit k = .ok () := rfl

theorem mbRows_happy (ids : Nat → String) (eid t : String) :
    ∀ (chunk : List Ingredient) (st : P2.MBSt),
    P2.mbRows (happyStore ids) eid t st chunk =
      .ok ⟨st.txnIdx, st.rowIdx + chunk.length, st.ledger,
        st.trace ++ chunk.map fun ing =>
          .createProductRow DATABASE_ID COLLECTION_PRODUCTS (mkProductRowT eid ing) t⟩ := by
  intro chunk
  induction chunk with
  | nil => intro st; cases st; simp [P2.mbRows]
  | cons ing rest ih =>
    intro st
    rw [P2.mbRows]
    simp only [happyStore_stage]
    rw [ih]
    simp [List.append_assoc, Nat.add_comm, Nat.add_assoc, Nat.add_left_comm]

theorem mbBatches_happy (ids : Nat → String) (eid : String) :
    ∀ (cs : List (List Ingredient)) (st : P2.MBSt),
    P2.mbBatches (happyStore ids) eid st cs =
      .ok ⟨st.txnIdx + cs.length,
           st.rowIdx + (cs.map List.length).sum,
           st.ledger ++ (List.range cs.length).map (fun j => ids (st.txnIdx + j)),
           st.trace ++ mbCanon ids eid st.txnIdx cs⟩ := by
  intro cs
  induction cs with
  | nil => intro st; cases st; simp [P2.mbBatches, mbCanon]
  | cons c rest ih =>
    intro st
    rw [P2.mbBatches]
    simp only [happyStore_newTxn, happyStore_commit]
    rw [mbRows_happy]
    simp only
    rw [ih]
    simp only [mbCanon, List.length_cons, List.map_cons, List.sum_cons,
      Except.ok.injEq, P2.MBSt.mk.injEq]
    refine ⟨by omega, by omega, ?_, by simp [List.append_assoc]⟩
    rw [List.append_assoc]
    congr 1
    rw [List.range_succ_eq_map, List.map_cons, List.map_map]
    simp only [Nat.add_zero, List.singleton_append]
    congr 1
    apply List.map_congr_left
    intro j _
    simp only [Function.comp_apply]
    congr 1
    omega

theorem cons_range_map (ids : Nat → String) (n : Nat) :
    ids 0 :: (List.range n).map (fun j => ids (1 + j)) = (List.range (n + 1)).map ids := by
  rw [List.range_succ_eq_map, List.map_cons, List.map_map]
  congr 1
  apply List.map_congr_left
  intro j _
  simp only [Function.comp_apply]
  congr 1
  omega

/-- The whole main phase of part_002 on an all-success store, for a valid
input whose ingredients field is an array. -/
theorem mbMain_happy (ids : Nat → String) (inp : RequestInput) (d : EventDataObj)
    (xs : List Ingredient) (hed : inp.eventData = .obj d) (hing : d.ingredients = .array xs) :
    P2.mbMain (happyStore ids) inp =
      .ok ⟨1 + (chunks99 xs).length,
           1 + ((chunks99 xs).map List.length).sum,
           (List.range (1 + (chunks99 xs).length)).map ids,
           .createTransaction (some (ids 0)) ::
             .createMainRow DATABASE_ID COLLECTION_MAIN inp.eventId.toStr
               (mkMainDoc inp.eventId.toStr d inp.contentHash inp.userId) (ids 0) ::
             .commitTxn (ids 0) :: mbCanon ids inp.eventId.toStr 1 (chunks99 xs)⟩ := by
  rw [P2.mbMain]
  simp only [happyStore_newTxn, happyStore_stage, happyStore_commit, hed,
    ingredientsList, hing, edObj]
  rw [mbBatches_happy]
  simp only [Except.ok.injEq, P2.MBSt.mk.injEq]
  refine ⟨trivial, trivial, ?_, by simp⟩
  rw [List.singleton_append, cons_range_map, Nat.add_comm]

/-- C1 (confirmed).  For every valid input whose ingredients array has length
`n` exceeding the 99-operation cap (the hypothesis `hcap`; the run shape in
fact holds for every array), the multi-batch writer of part_002 partitions
the products into `⌈n/99⌉` consecutive 99-chunks and its trace is exactly:
open the parent transaction, stage the parent row, commit it, then for each
chunk in order open a fresh transaction, stage that chunk's rows, and commit
it before opening the next (`mbCanon`).  The success response has status 200,
`totalTransactions = 1 + ⌈n/99⌉` and one transaction identifier per batch
plus the parent's in `transactionIds`. -/
theorem claim_C1 (ids : Nat → String) (inp : RequestInput) (d : EventDataObj)
    (xs : List Ingredient) (hv : missingData inp = false)
    (hed : inp.eventData = .obj d) (hing : d.ingredients = .array xs)
    (_hcap : 99 < xs.length) :
    (P2.createProductsList (happyStore ids) inp).calls =
        .createTransaction (some (ids 0)) ::
          .createMainRow DATABASE_ID COLLECTION_MAIN inp.eventId.toStr
            (mkMainDoc inp.eventId.toStr d inp.contentHash inp.userId) (ids 0) ::
          .commitTxn (ids 0) :: mbCanon ids inp.eventId.toStr 1 (chunks99 xs) ∧
      (chunks99 xs).length = (xs.length + 98) / 99 ∧
      (P2.createProductsList (happyStore ids) inp).ledger =
        (List.range (1 + (chunks99 xs).length)).map ids ∧
      (P2.createProductsList (happyStore ids) inp).res =
        ⟨200, [("success", .bool true),
               ("eventId", inp.eventId),
               ("totalTransactions", .num (1 + (chunks99 xs).length)),
               ("transactionIds", .arr (((List.range (1 + (chunks99 xs).length)).map ids).map .str)),
               ("message", .str "Liste de produits créée avec succès (multi-transactions validées)")]⟩ := by
  have hrun := mbMain_happy ids inp d xs hed hing
  rw [P2.createProductsList]
  simp only [hv, Bool.false_eq_true, if_false, hrun]
  refine ⟨trivial, chunks99_length xs.length xs le_rfl, trivial, ?_⟩
  simp

/-- A transaction-identifier stream for concrete runs. -/
def idsW : Nat → String := fun k => "tx" ++ toString k

/-- 100 ingredients: enough to need two product batches. -/
def xsC1 : List Ingredient := List.replicate 100 {}

def edC1 : EventDataObj := ⟨.undefined, .undefined, .array xsC1⟩

def inpC1 : RequestInput := ⟨.str "E1", .obj edC1, .str "h", .str "U"⟩

/-- Witness for C1 at a concrete 100-ingredient input. -/
theorem claim_C1_witness :
    (P2.createProductsList (happyStore idsW) inpC1).calls =
        .createTransaction (some (idsW 0)) ::
          .createMainRow DATABASE_ID COLLECTION_MAIN inpC1.eventId.toStr
            (mkMainDoc inpC1.eventId.toStr edC1 inpC1.contentHash inpC1.userId) (idsW 0) ::
          .commitTxn (idsW 0) :: mbCanon idsW inpC1.eventId.toStr 1 (chunks99 xsC1) ∧
      (chunks99 xsC1).length = (xsC1.length + 98) / 99 ∧
      (P2.createProductsList (happyStore idsW) inpC1).ledger =
        (List.range (1 + (chunks99 xsC1).length)).map idsW ∧
      (P2.createProductsList (happyStore idsW) inpC1).res =
        ⟨200, [("success", .bool true),
               ("eventId", inpC1.eventId),
               ("totalTransactions", .num (1 + (chunks99 xsC1).length)),
               ("transactionIds", .arr (((List.range (1 + (chunks99 xsC1).length)).map idsW).map .str)),
               ("message", .str "Liste de produits créée avec succès (multi-transactions validées)")]⟩ :=
  claim_C1 idsW inpC1 edC1 xsC1 rfl rfl rfl (by simp [xsC1])

/-! ## Rollback-ledger lemmas for part_002 on arbitrary stores -/

/-- The run state of either outcome of a phase. -/
def P2.stOf : Except (P2.MBSt × JsError) P2.MBSt → P2.MBSt
  | .ok st => st
  | .error (st, _) => st

@[simp] theorem openedTxns_append (a b : List Call) :
    openedTxns (a ++ b) = openedTxns a ++ openedTxns b := by
  simp [openedTxns, List.filterMap_append]

@[simp] theorem rbTargets_append (a b : List Call) :
    rbTargets (a ++ b) = rbTargets a ++ rbTargets b := by
  simp [rbTargets, List.filterMap_append]

@[simp] theorem openedTxns_nil : openedTxns [] = [] := rfl

@[simp] theorem rbTargets_nil : rbTargets [] = [] := rfl

@[simp] theorem openedTxns_ct_some (t : String) (l : List Call) :
    openedTxns (.createTransaction (some t) :: l) = t :: openedTxns l := by
  simp [openedTxns, List.filterMap_cons]

@[simp] theorem openedTxns_ct_none (l : List Call) :
    openedTxns (.createTransaction none :: l) = openedTxns l := by
  simp [openedTxns, List.filterMap_cons]

@[simp] theorem openedTxns_getDocument (a b c : String) (l : List Call) :
    openedTxns (.getDocument a b c :: l) = openedTxns l := by
  simp [openedTxns, List.filterMap_cons]

@[simp] theorem openedTxns_createOperationsDoc (t : String) (ops : List OperationDoc)
    (l : List Call) : openedTxns (.createOperationsDoc t ops :: l) = openedTxns l := by
  simp [openedTxns, List.filterMap_cons]

@[simp] theorem openedTxns_createOperationsTbl (a t : String) (ops : List OperationTbl)
    (l : List Call) : openedTxns (.createOperationsTbl a t ops :: l) = openedTxns l := by
  simp [openedTxns, List.filterMap_cons]

@[simp] theorem openedTxns_createMainRow (a b c : String) (doc : MainDoc) (t : String)
    (l : List Call) : openedTxns (.createMainRow a b c doc t :: l) = openedTxns l := by
  simp [openedTxns, List.filterMap_cons]

@[simp] theorem openedTxns_createProductRow (a b : String) (row : ProductRow) (t : String)
    (l : List Call) : openedTxns (.createProductRow a b row t :: l) = openedTxns l := by
  simp [openedTxns, List.filterMap_cons]

@[simp] theorem openedTxns_createRows (a b : String) (rows : List ProductRow) (t : String)
    (l : List Call) : openedTxns (.createRows a b rows t :: l) = openedTxns l := by
  simp [openedTxns, List.filterMap_cons]

@[simp] theorem openedTxns_commitTxn (t : String) (l : List Call) :
    openedTxns (.commitTxn t :: l) = openedTxns l := by
  simp [openedTxns, List.filterMap_cons]

@[simp] theorem openedTxns_rollbackTxn (t : String) (l : List Call) :
    openedTxns (.rollbackTxn t :: l) = openedTxns l := by
  simp [openedTxns, List.filterMap_cons]

@[simp] theorem rbTargets_ct (o : Option String) (l : List Call) :
    rbTargets (.createTransaction o :: l) = rbTargets l := by
  simp [rbTargets, List.filterMap_cons]

@[simp] theorem rbTargets_getDocument (a b c : String) (l : List Call) :
    rbTargets (.getDocument a b c :: l) = rbTargets l := by
  simp [rbTargets, List.filterMap_cons]

@[simp] theorem rbTargets_createOperationsDoc (t : String) (ops : List OperationDoc)
    (l : List Call) : rbTargets (.createOperationsDoc t ops :: l) = rbTargets l := by
  simp [rbTargets, List.filterMap_cons]

@[simp] theorem rbTargets_createOperationsTbl (a t : String) (ops : List OperationTbl)
    (l : List Call) : rbTargets (.createOperationsTbl a t ops :: l) = rbTargets l := by
  simp [rbTargets, List.filterMap_cons]

@[simp] theorem rbTargets_createMainRow (a b c : String) (doc : MainDoc) (t : String)
    (l : List Call) : rbTargets (.createMainRow a b c doc t :: l) = rbTargets l := by
  simp [rbTargets, List.filterMap_cons]

@[simp] theorem rbTargets_createProductRow (a b : String) (row : ProductRow) (t : String)
    (l : List Call) : rbTargets (.createProductRow a b row t :: l) = rbTargets l := by
  simp [rbTargets, List.filterMap_cons]

@[simp] theorem rbTargets_createRows (a b : String) (rows : List ProductRow) (t : String)
    (l : List Call) : rbTargets (.createRows a b rows t :: l) = rbTargets l := by
  simp [rbTargets, List.filterMap_cons]

@[simp] theorem rbTargets_commitTxn (t : String) (l : List Call) :
    rbTargets (.commitTxn t :: l) = rbTargets l := by
  simp [rbTargets, List.filterMap_cons]

@[simp] theorem rbTargets_rollbackTxn (t : String) (l : List Call) :
    rbTargets (.rollbackTxn t :: l) = t :: rbTargets l := by
  simp [rbTargets, List.filterMap_cons]

/-- The row loop never opens transactions, never rolls back, and never touches
the ledger. -/
theorem mbRows_inv (store : Store) (eid t : String) :
    ∀ (chunk : List Ingredient) (st : P2.MBSt),
    (P2.stOf (P2.mbRows store eid t st chunk)).ledger = st.ledger ∧
    ∃ del, (P2.stOf (P2.mbRows store eid t st chunk)).trace = st.trace ++ del ∧
      openedTxns del = [] ∧ rbTargets del = [] := by
  intro chunk
  induction chunk with
  | nil =>
    intro st
    refine ⟨rfl, [], by simp [P2.mbRows, P2.stOf], by simp [openedTxns], by simp [rbTargets]⟩
  | cons ing rest ih =>
    intro st
    rw [P2.mbRows]
    cases h : store.stage st.rowIdx with
    | error e =>
      refine ⟨rfl, [.createProductRow DATABASE_ID COLLECTION_PRODUCTS (mkProductRowT eid ing) t],
        by simp [P2.stOf], by simp [openedTxns], by simp [rbTargets]⟩
    | ok u =>
      obtain ⟨hl, del, htr, hop, hrb⟩ := ih
        { st with rowIdx := st.rowIdx + 1,
                  trace := st.trace ++ [.createProductRow DATABASE_ID COLLECTION_PRODUCTS
                    (mkProductRowT eid ing) t] }
      refine ⟨hl, .createProductRow DATABASE_ID COLLECTION_PRODUCTS (mkProductRowT eid ing) t :: del,
        ?_, ?_, ?_⟩
      · simpa [List.append_assoc] using htr
      · simpa [openedTxns] using hop
      · simpa [rbTargets] using hrb

/-- The batch loop: its trace delta contains no rollback, and the ledger grows
by exactly the transactions the delta records as opened, in order. -/
theorem mbBatches_inv (store : Store) (eid : String) :
    ∀ (cs : List (List Ingredient)) (st : P2.MBSt),
    ∃ del, (P2.stOf (P2.mbBatches store eid st cs)).trace = st.trace ++ del ∧
      (P2.stOf (P2.mbBatches store eid st cs)).ledger = st.ledger ++ openedTxns del ∧
      rbTargets del = [] := by
  intro cs
  induction cs with
  | nil =>
    intro st
    exact ⟨[], by simp [P2.mbBatches, P2.stOf], by simp [P2.mbBatches, P2.stOf, openedTxns],
      by simp [rbTargets]⟩
  | cons c rest ih =>
    intro st
    rw [P2.mbBatches]
    cases hn : store.newTxn st.txnIdx with
    | error e =>
      exact ⟨[.createTransaction none], by simp [P2.stOf],
        by simp [P2.stOf, openedTxns], by simp [rbTargets]⟩
    | ok t =>
      dsimp only
      have hrows := mbRows_inv store eid t c
        { st with txnIdx := st.txnIdx + 1, ledger := st.ledger ++ [t],
                  trace := st.trace ++ [.createTransaction (some t)] }
      obtain ⟨hl1, del1, htr1, hop1, hrb1⟩ := hrows
      cases hr : P2.mbRows store eid t
          { st with txnIdx := st.txnIdx + 1, ledger := st.ledger ++ [t],
                    trace := st.trace ++ [.createTransaction (some t)] } c with
      | error p =>
        obtain ⟨st2, e⟩ := p
        rw [hr] at hl1 htr1
        simp only [P2.stOf] at hl1 htr1
        dsimp only [P2.stOf]
        refine ⟨.createTransaction (some t) :: del1, ?_, ?_, ?_⟩
        · rw [htr1]
          simp [List.append_assoc]
        · rw [hl1]
          simp [hop1]
        · simp [hrb1]
      | ok st2 =>
        rw [hr] at hl1 htr1
        simp only [P2.stOf] at hl1 htr1
        dsimp only
        cases hc : store.commit st.txnIdx with
        | error e =>
          dsimp only [P2.stOf]
          refine ⟨.createTransaction (some t) :: (del1 ++ [.commitTxn t]), ?_, ?_, ?_⟩
          · rw [htr1]
            simp [List.append_assoc]
          · rw [hl1]
            simp [hop1]
          · simp [hrb1]
        | ok u =>
          obtain ⟨del2, htr2, hop2, hrb2⟩ := ih { st2 with trace := st2.trace ++ [.commitTxn t] }
          simp only at htr2 hop2
          refine ⟨.createTransaction (some t) :: (del1 ++ [.commitTxn t] ++ del2), ?_, ?_, ?_⟩
          · rw [htr2, htr1]
            simp [List.append_assoc]
          · rw [hop2, hl1]
            simp [hop1, List.append_assoc]
          · simp [hrb1, hrb2]

/-- The main phase of part_002: the final ledger is exactly the list of
transactions the trace records as opened, in order, and the trace contains no
rollback calls. -/
theorem mbMain_inv (store : Store) (inp : RequestInput) :
    (P2.stOf (P2.mbMain store inp)).ledger = openedTxns (P2.stOf (P2.mbMain store inp)).trace ∧
    rbTargets (P2.stOf (P2.mbMain store inp)).trace = [] := by
  rw [P2.mbMain]
  cases hn : store.newTxn 0 with
  | error e => exact ⟨by simp [P2.stOf, openedTxns], by simp [P2.stOf, rbTargets]⟩
  | ok t0 =>
    cases hs : store.stage 0 with
    | error e => exact ⟨by simp [P2.stOf, openedTxns], by simp [P2.stOf, rbTargets]⟩
    | ok u =>
      cases hc : store.commit 0 with
      | error e => exact ⟨by simp [P2.stOf, openedTxns], by simp [P2.stOf, rbTargets]⟩
      | ok v =>
        cases hil : ingredientsList inp with
        | none => exact ⟨by simp [P2.stOf, openedTxns], by simp [P2.stOf, rbTargets]⟩
        | some xs =>
          obtain ⟨del, htr, hld, hrb⟩ := mbBatches_inv store inp.eventId.toStr (chunks99 xs)
            ⟨1, 1, [t0], [.createTransaction (some t0),
              .createMainRow DATABASE_ID COLLECTION_MAIN inp.eventId.toStr
                (mkMainDoc inp.eventId.toStr (edObj inp.eventData) inp.contentHash inp.userId) t0,
              .commitTxn t0]⟩
          simp only at htr hld
          refine ⟨?_, ?_⟩
          · rw [hld, htr, openedTxns_append]
            simp [openedTxns]
          · rw [htr, rbTargets_append, hrb]
            simp [rbTargets]

/-- Number of attempts the rollback retry loop makes for transaction `t`:
the first success among attempts 0, 1, 2, else all three. -/
def attemptsFor (rb : String → Nat → Bool) (t : String) : Nat :=
  if rb t 0 then 1 else if rb t 1 then 2 else 3

theorem attemptsFor_pos (rb : String → Nat → Bool) (t : String) :
    1 ≤ attemptsFor rb t := by
  unfold attemptsFor
  split <;> [skip; split] <;> omega

theorem attemptsFor_le_three (rb : String → Nat → Bool) (t : String) :
    attemptsFor rb t ≤ 3 := by
  unfold attemptsFor
  split <;> [skip; split] <;> omega

/-- The retry loop makes exactly `attemptsFor` rollback calls on `t`. -/
theorem rollbackLoop_eq (rb : String → Nat → Bool) (t : String) :
    P2.rollbackLoop rb t 0 = List.replicate (attemptsFor rb t) (.rollbackTxn t) := by
  cases h0 : rb t 0 <;> cases h1 : rb t 1 <;> cases h2 : rb t 2 <;>
    simp [P2.rollbackLoop, attemptsFor, h0, h1, h2, List.replicate_succ]

theorem rbTargets_replicate (k : Nat) (t : String) :
    rbTargets (List.replicate k (.rollbackTxn t)) = List.replicate k t := by
  induction k with
  | zero => simp
  | succ k ih => simp [List.replicate_succ, ih]

theorem openedTxns_replicate_rb (k : Nat) (t : String) :
    openedTxns (List.replicate k (.rollbackTxn t)) = [] := by
  induction k with
  | zero => simp
  | succ k ih => simp [List.replicate_succ, ih]

/-- Trace shape of the whole rollback phase over a ledger. -/
theorem rbPhase_shape (rb : String → Nat → Bool) :
    ∀ ledger : List String,
    rbTargets (ledger.flatMap fun t => P2.rollbackLoop rb t 0) =
        ledger.flatMap (fun t => List.replicate (attemptsFor rb t) t) ∧
      openedTxns (ledger.flatMap fun t => P2.rollbackLoop rb t 0) = [] := by
  intro ledger
  induction ledger with
  | nil => simp
  | cons t rest ih =>
    constructor
    · rw [List.flatMap_cons, List.flatMap_cons, rbTargets_append, rollbackLoop_eq,
        rbTargets_replicate, ih.1]
    · rw [List.flatMap_cons, openedTxns_append, rollbackLoop_eq,
        openedTxns_replicate_rb, ih.2]
      simp

/-- A caught run of part_002 comes from a failing main phase and ends in
`mbCatch`. -/
theorem p2_run_caught (store : Store) (inp : RequestInput) (e : JsError)
    (h : (P2.createProductsList store inp).caught = some e) :
    ∃ st : P2.MBSt, P2.mbMain store inp = .error (st, e) ∧
      P2.createProductsList store inp = P2.mbCatch store st e := by
  rw [P2.createProductsList] at h ⊢
  by_cases hmd : missingData inp = true
  · simp [hmd] at h
  · simp only [hmd, Bool.false_eq_true, if_false] at h ⊢
    cases hm : P2.mbMain store inp with
    | ok st => rw [hm] at h; simp at h
    | error p =>
      obtain ⟨st, e0⟩ := p
      rw [hm] at h
      simp only [P2.mbCatch] at h
      have : e0 = e := by simpa using h
      subst this
      exact ⟨st, rfl, rfl⟩

/-- In every caught run of part_002 the ledger is exactly the opened
transactions of the trace, and the rollback calls are the ledger entries in
order, each attempted `attemptsFor` times. -/
theorem p2_rollback_structure (store : Store) (inp : RequestInput) (e : JsError)
    (h : (P2.createProductsList store inp).caught = some e) :
    (P2.createProductsList store inp).ledger =
        openedTxns (P2.createProductsList store inp).calls ∧
      rbTargets (P2.createProductsList store inp).calls =
        (P2.createProductsList store inp).ledger.flatMap
          (fun t => List.replicate (attemptsFor store.rollback t) t) := by
  obtain ⟨st, hm, hrun⟩ := p2_run_caught store inp e h
  have hinv := mbMain_inv store inp
  rw [hm] at hinv
  simp only [P2.stOf] at hinv
  rw [hrun]
  simp only [P2.mbCatch]
  by_cases hl : st.ledger.length > 0
  · simp only [hl, if_true]
    constructor
    · rw [openedTxns_append, (rbPhase_shape store.rollback st.ledger).2, hinv.1]
      simp
    · rw [rbTargets_append, (rbPhase_shape store.rollback st.ledger).1, hinv.2]
      simp
  · have hnil : st.ledger = [] := by
      cases hledger : st.ledger with
      | nil => rfl
      | cons a l => rw [hledger] at hl; simp at hl
    have hop : openedTxns st.trace = [] := hinv.1.symm.trans hnil
    simp [hl, hnil, hop, hinv.2]

/-- C2 (confirmed).  Whenever a run of the multi-batch variant fails after
opening some transactions, the rollback calls in its trace are exactly the
transactions the trace records as opened — every one of them, in the order
they were opened, each attempted at least once and at most 3 times — and
never a transaction that was not opened. -/
theorem claim_C2 (store : Store) (inp : RequestInput) (e : JsError)
    (h : (P2.createProductsList store inp).caught = some e) :
    rbTargets (P2.createProductsList store inp).calls =
        (openedTxns (P2.createProductsList store inp).calls).flatMap
          (fun t => List.replicate (attemptsFor store.rollback t) t) ∧
      ∀ t, 1 ≤ attemptsFor store.rollback t ∧ attemptsFor store.rollback t ≤ 3 := by
  obtain ⟨hled, hrb⟩ := p2_rollback_structure store inp e h
  refine ⟨by rw [← hled]; exact hrb, fun t => ⟨attemptsFor_pos _ _, attemptsFor_le_three _ _⟩⟩

/-- A store that opens transactions but fails every commit and every
rollback. -/
def storeC2 : Store :=
  { happyStore idsW with
    commit := fun _ => .error ⟨"boom", .strCode "boom", ""⟩
    rollback := fun _ _ => false }

def edC2 : EventDataObj := ⟨.undefined, .undefined, .array [{}]⟩

def inpC2 : RequestInput := ⟨.str "E1", .obj edC2, .str "h", .str "U"⟩

/-- Witness for C2: a run whose parent commit fails with every rollback
attempt failing. -/
theorem claim_C2_witness :
    (rbTargets (P2.createProductsList storeC2 inpC2).calls =
        (openedTxns (P2.createProductsList storeC2 inpC2).calls).flatMap
          (fun t => List.replicate (attemptsFor storeC2.rollback t) t) ∧
      ∀ t, 1 ≤ attemptsFor storeC2.rollback t ∧ attemptsFor storeC2.rollback t ≤ 3) :=
  claim_C2 storeC2 inpC2 ⟨"boom", .strCode "boom", ""⟩ rfl

/-! ## C3: retry bound and error propagation -/

theorem mbRows_rb_irrel (store : Store) (rb rb' : String → Nat → Bool)
    (eid t : String) : ∀ (chunk : List Ingredient) (st : P2.MBSt),
    P2.mbRows { store with rollback := rb } eid t st chunk =
      P2.mbRows { store with rollback := rb' } eid t st chunk := by
  intro chunk
  induction chunk with
  | nil => intro st; rfl
  | cons ing rest ih =>
    intro st
    rw [P2.mbRows, P2.mbRows]
    dsimp only
    cases store.stage st.rowIdx with
    | error e => rfl
    | ok u => exact ih _

theorem mbBatches_rb_irrel (store : Store) (rb rb' : String → Nat → Bool)
    (eid : String) : ∀ (cs : List (List Ingredient)) (st : P2.MBSt),
    P2.mbBatches { store with rollback := rb } eid st cs =
      P2.mbBatches { store with rollback := rb' } eid st cs := by
  intro cs
  induction cs with
  | nil => intro st; rfl
  | cons c rest ih =>
    intro st
    rw [P2.mbBatches, P2.mbBatches]
    dsimp only
    cases store.newTxn st.txnIdx with
    | error e => rfl
    | ok t =>
      dsimp only
      rw [mbRows_rb_irrel store rb rb' eid t c]
      cases P2.mbRows { store with rollback := rb' } eid t
          { st with txnIdx := st.txnIdx + 1, ledger := st.ledger ++ [t],
                    trace := st.trace ++ [.createTransaction (some t)] } c with
      | error p => rfl
      | ok st2 =>
        dsimp only
        cases store.commit st.txnIdx with
        | error e => rfl
        | ok u => exact ih _

/-- The main phase never consults the rollback oracle. -/
theorem mbMain_rb_irrel (store : Store) (rb rb' : String → Nat → Bool)
    (inp : RequestInput) :
    P2.mbMain { store with rollback := rb } inp =
      P2.mbMain { store with rollback := rb' } inp := by
  rw [P2.mbMain, P2.mbMain]
  dsimp only
  cases store.newTxn 0 with
  | error e => rfl
  | ok t0 =>
    dsimp only
    cases store.stage 0 with
    | error e => rfl
    | ok u =>
      dsimp only
      cases store.commit 0 with
      | error e => rfl
      | ok v =>
        dsimp only
        cases ingredientsList inp with
        | none => rfl
        | some xs =>
          dsimp only
          exact mbBatches_rb_irrel store rb rb' inp.eventId.toStr (chunks99 xs) _

/-- part_002's response is a function of the original error and the ledger
only — rollback outcomes (including total rollback failure) never change it. -/
theorem p2_res_rb_irrel (store : Store) (rb rb' : String → Nat → Bool)
    (inp : RequestInput) :
    (P2.createProductsList { store with rollback := rb } inp).res =
      (P2.createProductsList { store with rollback := rb' } inp).res := by
  rw [P2.createProductsList, P2.createProductsList]
  by_cases hmd : missingData inp = true
  · simp [hmd]
  · simp only [hmd, Bool.false_eq_true, if_false]
    rw [mbMain_rb_irrel store rb rb' inp]
    cases P2.mbMain { store with rollback := rb' } inp with
    | ok st => rfl
    | error p => rfl

/-- In a caught run of part_003, the response is `catchRes txn e` for the
original error `e`, and the trace contains no rollback call at all: the
catch's rollback attempt crashes locally on the try-scoped `databases` and
is swallowed before reaching the store. -/
theorem p3_caught_shape (store : Store) (inp : RequestInput) (e : JsError)
    (h : (P3.createProductsList store inp).caught = some e) :
    (P3.createProductsList store inp).res =
        P3.catchRes (P3.createProductsList store inp).txn e ∧
      rbTargets (P3.createProductsList store inp).calls = [] := by
  rw [P3.createProductsList] at h ⊢
  by_cases hmd : missingData inp = true
  · simp [hmd] at h
  · simp only [hmd, Bool.false_eq_true, if_false] at h ⊢
    cases hg : store.getDoc with
    | ok u =>
      try rw [hg] at h
      dsimp at h
      simp at h
    | error ge =>
      try rw [hg] at h
      try rw [hg]
      by_cases h404 : ge.code = .numCode 404
      · simp only [h404, if_true] at h ⊢
        cases hn : store.newTxn 0 with
        | error e0 =>
          try rw [hn] at h
          try rw [hn]
          dsimp at h ⊢
          simp only [P3.p3Catch] at h ⊢
          have he : e0 = e := by simpa using h
          subst he
          simp [rbTargets]
        | ok t =>
          try rw [hn] at h
          try rw [hn]
          cases hs : store.stage 0 with
          | error e0 =>
            try rw [hs] at h
            try rw [hs]
            dsimp at h ⊢
            simp only [P3.p3Catch] at h ⊢
            have he : e0 = e := by simpa using h
            subst he
            simp
          | ok u =>
            try rw [hs] at h
            try rw [hs]
            cases hil : ingredientsList inp with
            | none =>
              try rw [hil] at h
              try rw [hil]
              unfold P3.p3Finish at h ⊢
              cases hc : store.commit 0 with
              | error e0 =>
                try rw [hc] at h
                try rw [hc]
                dsimp at h ⊢
                simp only [P3.p3Catch] at h ⊢
                have he : e0 = e := by simpa using h
                subst he
                simp
              | ok v =>
                try rw [hc] at h
                dsimp at h
                simp at h
            | some xs =>
              try rw [hil] at h
              try rw [hil]
              cases hs1 : store.stage 1 with
              | error e0 =>
                try rw [hs1] at h
                try rw [hs1]
                dsimp at h ⊢
                simp only [P3.p3Catch] at h ⊢
                have he : e0 = e := by simpa using h
                subst he
                simp
              | ok v =>
                try rw [hs1] at h
                try rw [hs1]
                unfold P3.p3Finish at h ⊢
                cases hc : store.commit 0 with
                | error e0 =>
                  try rw [hc] at h
                  try rw [hc]
                  dsimp at h ⊢
                  simp only [P3.p3Catch] at h ⊢
                  have he : e0 = e := by simpa using h
                  subst he
                  simp
                | ok w =>
                  try rw [hc] at h
                  dsimp at h
                  simp at h
      · try rw [h404] at h
        simp only [h404, if_false] at h ⊢
        try dsimp at h ⊢
        simp only [P3.p3Catch] at h ⊢
        have he : ge = e := by simpa using h
        subst he
        simp [rbTargets]

/-- The response of a caught part_002 run is mapped from the original error
and the ledger alone. -/
theorem p2_caught_res (store : Store) (inp : RequestInput) (e : JsError)
    (h : (P2.createProductsList store inp).caught = some e) :
    (P2.createProductsList store inp).res =
      (if e.code = .numCode 409 ∨ e.code = .strCode "document_already_exists" then P2.resConflict
       else ⟨500, [("error", .str (strOr e.message "Erreur interne du serveur")),
                   ("code", errCodeJ e.code),
                   ("rolledBack", .bool (decide (0 < (P2.createProductsList store inp).ledger.length))),
                   ("transactionsCount", .num (P2.createProductsList store inp).ledger.length)]⟩) := by
  obtain ⟨st, hm, hrun⟩ := p2_run_caught store inp e h
  rw [hrun]
  dsimp [P2.mbCatch]

/-- C3 (confirmed).  In every failing run of the multi-batch variant, each
ledger entry's rollback is attempted at most 3 times (with the inter-attempt
delay abstracted away); the response is the same whatever the rollback
outcomes — rollback failures are swallowed and never replace the original
error — and outside the store-reported-duplicate mapping the response is a
500 carrying the original error's message and code with `rolledBack`
recording only that rollback was attempted (`allTransactions.length > 0`).
In the single-transaction variant of part_003 the catch's rollback attempt
references the try-scoped `databases` and crashes locally, swallowed: no
rollback call ever reaches the store (trivially within the 3-attempt bound),
and the run still returns the original error with
`rolledBack: !!transactionId`. -/
theorem claim_C3 (store : Store) (rb rb' : String → Nat → Bool) (inp : RequestInput)
    (e : JsError)
    (h : (P2.createProductsList { store with rollback := rb } inp).caught = some e)
    (store3 : Store) (inp3 : RequestInput) (e3 : JsError)
    (h3 : (P3.createProductsList store3 inp3).caught = some e3) :
    (rbTargets (P2.createProductsList { store with rollback := rb } inp).calls =
        (P2.createProductsList { store with rollback := rb } inp).ledger.flatMap
          (fun t => List.replicate (attemptsFor rb t) t) ∧
      ∀ t, 1 ≤ attemptsFor rb t ∧ attemptsFor rb t ≤ 3) ∧
    (P2.createProductsList { store with rollback := rb } inp).res =
      (P2.createProductsList { store with rollback := rb' } inp).res ∧
    (e.code ≠ .numCode 409 → e.code ≠ .strCode "document_already_exists" →
      (P2.createProductsList { store with rollback := rb } inp).res =
        ⟨500, [("error", .str (strOr e.message "Erreur interne du serveur")),
               ("code", errCodeJ e.code),
               ("rolledBack", .bool (decide (0 <
                  (P2.createProductsList { store with rollback := rb } inp).ledger.length))),
               ("transactionsCount", .num
                  (P2.createProductsList { store with rollback := rb } inp).ledger.length)]⟩) ∧
    (rbTargets (P3.createProductsList store3 inp3).calls = [] ∧
      (e3.code ≠ .numCode 409 → e3.code ≠ .strCode "document_already_exists" →
        (P3.createProductsList store3 inp3).res =
          ⟨500, [("error", .str (strOr e3.message "Erreur interne du serveur")),
                 ("code", errCodeJ e3.code),
                 ("rolledBack", .bool (P3.createProductsList store3 inp3).txn.isSome)]⟩)) := by
  refine ⟨⟨(p2_rollback_structure _ inp e h).2,
      fun t => ⟨attemptsFor_pos _ _, attemptsFor_le_three _ _⟩⟩,
    p2_res_rb_irrel store rb rb' inp, ?_, ?_, ?_⟩
  · intro h1 h2
    have := p2_caught_res _ inp e h
    rw [this, if_neg]
    simp [h1, h2]
  · exact (p3_caught_shape store3 inp3 e3 h3).2
  · intro h1 h2
    have := (p3_caught_shape store3 inp3 e3 h3).1
    rw [this, P3.catchRes, if_neg]
    simp [h1, h2]

/-- part_002 store for the C3 witness: commits fail. -/
def storeC3 : Store :=
  { happyStore idsW with commit := fun _ => .error ⟨"boom", .strCode "boom", ""⟩ }

/-- part_003 store for the C3 witness: staging fails. -/
def storeC3b : Store :=
  { happyStore idsW with stage := fun _ => .error ⟨"oops", .noCode, ""⟩ }

def rbNever : String → Nat → Bool := fun _ _ => false

def rbAlways : String → Nat → Bool := fun _ _ => true

/-- Witness for C3 at concrete failing runs of part_002 and part_003. -/
theorem claim_C3_witness :
    ((rbTargets (P2.createProductsList { storeC3 with rollback := rbNever } inpC2).calls =
        (P2.createProductsList { storeC3 with rollback := rbNever } inpC2).ledger.flatMap
          (fun t => List.replicate (attemptsFor rbNever t) t) ∧
      ∀ t, 1 ≤ attemptsFor rbNever t ∧ attemptsFor rbNever t ≤ 3) ∧
    (P2.createProductsList { storeC3 with rollback := rbNever } inpC2).res =
      (P2.createProductsList { storeC3 with rollback := rbAlways } inpC2).res ∧
    ((⟨"boom", .strCode "boom", ""⟩ : JsError).code ≠ .numCode 409 →
      (⟨"boom", .strCode "boom", ""⟩ : JsError).code ≠ .strCode "document_already_exists" →
      (P2.createProductsList { storeC3 with rollback := rbNever } inpC2).res =
        ⟨500, [("error", .str (strOr (⟨"boom", .strCode "boom", ""⟩ : JsError).message "Erreur interne du serveur")),
               ("code", errCodeJ (⟨"boom", .strCode "boom", ""⟩ : JsError).code),
               ("rolledBack", .bool (decide (0 <
                  (P2.createProductsList { storeC3 with rollback := rbNever } inpC2).ledger.length))),
               ("transactionsCount", .num
                  (P2.createProductsList { storeC3 with rollback := rbNever } inpC2).ledger.length)]⟩) ∧
    (rbTargets (P3.createProductsList storeC3b inpC2).calls = [] ∧
      ((⟨"oops", .noCode, ""⟩ : JsError).code ≠ .numCode 409 →
        (⟨"oops", .noCode, ""⟩ : JsError).code ≠ .strCode "document_already_exists" →
        (P3.createProductsList storeC3b inpC2).res =
          ⟨500, [("error", .str (strOr (⟨"oops", .noCode, ""⟩ : JsError).message "Erreur interne du serveur")),
                 ("code", errCodeJ (⟨"oops", .noCode, ""⟩ : JsError).code),
                 ("rolledBack", .bool (P3.createProductsList storeC3b inpC2).txn.isSome)]⟩))) :=
  claim_C3 storeC3 rbNever rbAlways inpC2 ⟨"boom", .strCode "boom", ""⟩ rfl
    storeC3b inpC2 ⟨"oops", .noCode, ""⟩ rfl

/-! ## C4: idempotent create -/

/-- A store in which the parent row already exists: the existence check
succeeds, and any staged duplicate write is rejected with a 409. -/
def storeC4 : Store :=
  { happyStore idsW with
    getDoc := .ok ()
    stage := fun _ => .error ⟨"Row with the requested ID already exists.", .numCode 409, ""⟩ }

/-- Counterexample to C4 as stated: on the multi-batch variant (part_002),
with the parent already present (the store reports the duplicate when the
parent row is staged), the run still opens a transaction — its first remote
call is `createTransaction`, not an existence check — and the response code
is `conflict`, not `already_exists`.  So "in every creation variant no
transaction is opened and the code is already_exists" is false. -/
theorem claim_C4_counterexample :
    (P2.createProductsList storeC4 inpC2).calls.head? =
        some (.createTransaction (some (idsW 0))) ∧
      (P2.createProductsList storeC4 inpC2).res.status = 409 ∧
      (P2.createProductsList storeC4 inpC2).res.body.lookup "code" = some (.str "conflict") ∧
      ¬((P2.createProductsList storeC4 inpC2).res.body.lookup "code" =
        some (.str "already_exists")) := by
  refine ⟨rfl, rfl, rfl, ?_⟩
  have hc : (P2.createProductsList storeC4 inpC2).res.body.lookup "code" =
      some (.str "conflict") := rfl
  rw [hc]
  simp

/-- The multi-batch variant opens a transaction before anything else, for
every store behavior: its first remote call is a `createTransaction`. -/
theorem p2_first_call (store : Store) (inp : RequestInput)
    (hv : missingData inp = false) :
    ∃ o, (P2.createProductsList store inp).calls.head? =
      some (.createTransaction o) := by
  rw [P2.createProductsList]
  simp only [hv, Bool.false_eq_true, if_false]
  rw [P2.mbMain]
  cases hn : store.newTxn 0 with
  | error e =>
    exact ⟨none, by simp [P2.mbCatch]⟩
  | ok t0 =>
    dsimp only
    cases hs : store.stage 0 with
    | error e => exact ⟨some t0, by simp [P2.mbCatch]⟩
    | ok u =>
      dsimp only
      cases hc : store.commit 0 with
      | error e => exact ⟨some t0, by simp [P2.mbCatch]⟩
      | ok v =>
        dsimp only
        cases hil : ingredientsList inp with
        | none => exact ⟨some t0, by simp⟩
        | some xs =>
          dsimp only
          refine ⟨some t0, ?_⟩
          obtain ⟨del, htr, _, _⟩ := mbBatches_inv store inp.eventId.toStr (chunks99 xs)
            ⟨1, 1, [t0], [.createTransaction (some t0),
              .createMainRow DATABASE_ID COLLECTION_MAIN inp.eventId.toStr
                (mkMainDoc inp.eventId.toStr (edObj inp.eventData) inp.contentHash inp.userId) t0,
              .commitTxn t0]⟩
          simp only at htr
          cases hb : P2.mbBatches store inp.eventId.toStr
              ⟨1, 1, [t0], [.createTransaction (some t0),
                .createMainRow DATABASE_ID COLLECTION_MAIN inp.eventId.toStr
                  (mkMainDoc inp.eventId.toStr (edObj inp.eventData) inp.contentHash inp.userId) t0,
                .commitTxn t0]⟩ (chunks99 xs) with
          | error p =>
            obtain ⟨st, e⟩ := p
            rw [hb] at htr
            simp only [P2.stOf] at htr
            simp [P2.mbCatch, htr]
          | ok st =>
            rw [hb] at htr
            simp only [P2.stOf] at htr
            simp [htr]

/-- C4 (amended).  The variants that perform the existence check — src/main.js
and part_003 — return 409 `already_exists` with no write and no transaction
when the parent record is visible; the multi-batch variant part_002 performs
no existence check at all: for every store behavior its first remote call
opens a transaction, and a store-reported duplicate surfaces as 409 `conflict`
after rollback, not as `already_exists`. -/
theorem claim_C4_amended (store : Store) (inp : RequestInput)
    (hfound : store.getDoc = .ok ()) (hv : missingData inp = false)
    (store2 : Store) (inp2 : RequestInput) (hv2 : missingData inp2 = false) :
    MainJs.createProductsList store inp =
        ⟨[.getDocument DATABASE_ID COLLECTION_MAIN inp.eventId.toStr], resAlreadyExists⟩ ∧
      P3.createProductsList store inp =
        ⟨[.getDocument DATABASE_ID COLLECTION_MAIN inp.eventId.toStr], resAlreadyExists,
          none, none⟩ ∧
      (∃ o, (P2.createProductsList store2 inp2).calls.head? =
        some (.createTransaction o)) := by
  refine ⟨?_, ?_, p2_first_call store2 inp2 hv2⟩
  · rw [MainJs.createProductsList]
    simp [hv, hfound]
  · rw [P3.createProductsList]
    simp [hv, hfound]

/-- The store of the C4 witness: the parent exists. -/
def storeC4b : Store := { happyStore idsW with getDoc := .ok () }

/-- Witness for the amended C4 at a concrete input with the parent present. -/
theorem claim_C4_witness :
    MainJs.createProductsList storeC4b inpC2 =
        ⟨[.getDocument DATABASE_ID COLLECTION_MAIN inpC2.eventId.toStr], resAlreadyExists⟩ ∧
      P3.createProductsList storeC4b inpC2 =
        ⟨[.getDocument DATABASE_ID COLLECTION_MAIN inpC2.eventId.toStr], resAlreadyExists,
          none, none⟩ ∧
      (∃ o, (P2.createProductsList storeC4b inpC2).calls.head? =
        some (.createTransaction o)) :=
  claim_C4_amended storeC4b inpC2 rfl rfl storeC4b inpC2 rfl

/-! ## C5: status mapping for oversized inputs -/

/-- 101 product identifiers with valid update parameters. -/
def d101 : BatchUpdateData :=
  { productIds := .arr (List.replicate 101 (.str "p"))
    products := .arr []
    updateType := .str "store"
    updateData := .str "s"
    options := .undefined }

/-- Counterexample to C5 as stated: part_001's `handleBatchUpdateProducts`
local cap check on 101 product identifiers answers **400**, not 429, and
makes no remote call. -/
theorem claim_C5_counterexample :
    P1.handleBatchUpdateProducts (happyStore idsW) d101 =
        ⟨[], ⟨400, [("error", .str "Too many products. Maximum 100 operations per transaction")]⟩⟩ ∧
      ¬((P1.handleBatchUpdateProducts (happyStore idsW) d101).res.status = 429) := by
  refine ⟨rfl, ?_⟩
  have h : (P1.handleBatchUpdateProducts (happyStore idsW) d101).res.status = 400 := rfl
  rw [h]
  decide

/-- C5 (amended).  The 429 mapping exists only for the store-reported
`transaction_limit_exceeded` error in the document-API variants (src/main.js);
the handlers' own local `maxOperations = 100` cap checks answer 400 before any
remote call — in part_001's batch-update and group-purchase handlers — and in
part_000 the same check crashes on the out-of-scope `res` and surfaces as a
500 instead. -/
theorem claim_C5_amended (store : Store) (inp : RequestInput) (ge e : JsError)
    (t : String)
    (hv : missingData inp = false) (hg : store.getDoc = .error ge)
    (hg404 : ge.code = .numCode 404) (hn : store.newTxn 0 = .ok t)
    (hs : store.stage 0 = .ok ()) (hc : store.commit 0 = .error e)
    (hcode : e.code = .strCode "transaction_limit_exceeded")
    (storeB : Store) (d : BatchUpdateData)
    (hbm : buMissing d = false) (hbc : exceedsCap d.productIds = true)
    (storeG : Store) (g : GPData) (products purchases : List JVal)
    (hgm : g.mainId.truthy = true) (hgb : g.batchData.truthy = true)
    (hgi : g.invoiceData.truthy = true)
    (hgp : GP.listField g.batchData "productsToCreate" = .arr products)
    (hgq : GP.listField g.batchData "purchasesToCreate" = .arr purchases)
    (hgtot : (products.length : Int) + purchases.length > 100) :
    (MainJs.createProductsList store inp).res =
        ⟨429, [("error", .str "Limite de transactions dépassée. Veuillez réduire le nombre d'ingrédients"),
               ("code", .str "transaction_limit_exceeded")]⟩ ∧
      P1.handleBatchUpdateProducts storeB d =
        ⟨[], ⟨400, [("error", .str "Too many products. Maximum 100 operations per transaction")]⟩⟩ ∧
      GP.handleCreateGroupPurchaseWithSync storeG g =
        ⟨[], ⟨400, [("error", .str ("Too many operations (" ++
          toString ((products.length : Int) + purchases.length) ++
          "). Maximum 100 operations per transaction"))]⟩⟩ ∧
      P0.mainHandler storeB (.str "batchUpdateProducts") d =
        ⟨[], ⟨500, [("error", .str "res is not defined")]⟩⟩ := by
  refine ⟨?_, ?_, ?_, ?_⟩
  · rw [MainJs.createProductsList]
    simp only [hv, Bool.false_eq_true, if_false, hg, hg404, if_true, hn, hs, hc]
    rw [MainJs.mainCatch]
    rw [hcode]
    simp
  · rw [P1.handleBatchUpdateProducts]
    simp [hbm, hbc]
  · rw [GP.handleCreateGroupPurchaseWithSync]
    simp only [hgm, hgb, hgi, Bool.not_true, Bool.false_or, Bool.or_self,
      Bool.false_eq_true, if_false, hgp, hgq]
    rw [if_pos hgtot]
  · rw [P0.mainHandler, P0.handleBatchUpdateProducts]
    simp [hbm, hbc, P0.refErrRes]

/-- A store that reports the transaction/operation-count limit at commit. -/
def storeTLE : Store :=
  { happyStore idsW with
    commit := fun _ =>
      .error ⟨"Transaction limit exceeded", .strCode "transaction_limit_exceeded", ""⟩ }

/-- Group-purchase payload with 101 products to create. -/
def gC5 : GPData :=
  { mainId := .str "m"
    batchData := .obj [("productsToCreate", .arr (List.replicate 101 (.str "x")))]
    invoiceData := .obj [("invoiceId", .str "i")] }

/-- Witness for the amended C5 at concrete oversized inputs. -/
theorem claim_C5_witness :
    (MainJs.createProductsList storeTLE inpC2).res =
        ⟨429, [("error", .str "Limite de transactions dépassée. Veuillez réduire le nombre d'ingrédients"),
               ("code", .str "transaction_limit_exceeded")]⟩ ∧
      P1.handleBatchUpdateProducts (happyStore idsW) d101 =
        ⟨[], ⟨400, [("error", .str "Too many products. Maximum 100 operations per transaction")]⟩⟩ ∧
      GP.handleCreateGroupPurchaseWithSync (happyStore idsW) gC5 =
        ⟨[], ⟨400, [("error", .str ("Too many operations (" ++
          toString (((List.replicate 101 (JVal.str "x")).length : Int) + ([] : List JVal).length) ++
          "). Maximum 100 operations per transaction"))]⟩⟩ ∧
      P0.mainHandler (happyStore idsW) (.str "batchUpdateProducts") d101 =
        ⟨[], ⟨500, [("error", .str "res is not defined")]⟩⟩ :=
  claim_C5_amended storeTLE inpC2
    ⟨"Document with the requested ID could not be found.", .numCode 404, ""⟩
    ⟨"Transaction limit exceeded", .strCode "transaction_limit_exceeded", ""⟩
    (idsW 0) rfl rfl rfl rfl rfl rfl rfl
    (happyStore idsW) d101 rfl rfl
    (happyStore idsW) gC5 (List.replicate 101 (.str "x")) [] rfl rfl rfl rfl rfl
    (by simp)

/-! ## C6: single-transaction commit counts and the success response -/

theorem happyStore_getDoc (ids : Nat → String) :
    (happyStore ids).getDoc =
      .error ⟨"Document with the requested ID could not be found.", .numCode 404, ""⟩ := rfl

def edC6 : EventDataObj := ⟨.undefined, .undefined, .array [{}, {}]⟩

def inpC6 : RequestInput := ⟨.str "E1", .obj edC6, .str "h", .str "U"⟩

/-- Counterexample to C6 as stated: on a successful 2-ingredient run, neither
src/main.js nor part_003 returns any record count — their success bodies
contain no numeric field at all, so "the success response returns the number
of records written" is false. -/
theorem claim_C6_counterexample :
    (MainJs.createProductsList (happyStore idsW) inpC6).res =
        ⟨200, [("success", .bool true), ("eventId", .str "E1"),
               ("message", .str "Liste de produits créée avec succès")]⟩ ∧
      (∀ kv ∈ (MainJs.createProductsList (happyStore idsW) inpC6).res.body,
        ∀ n : Int, kv.2 ≠ .num n) ∧
      (P3.createProductsList (happyStore idsW) inpC6).res =
        ⟨200, [("success", .bool true), ("eventId", .str "E1"),
               ("transactionId", .str (idsW 0)),
               ("message", .str "Liste de produits créée avec succès (transaction validée)")]⟩ ∧
      (∀ kv ∈ (P3.createProductsList (happyStore idsW) inpC6).res.body,
        ∀ n : Int, kv.2 ≠ .num n) := by
  have h1 : (MainJs.createProductsList (happyStore idsW) inpC6).res =
      ⟨200, [("success", .bool true), ("eventId", .str "E1"),
             ("message", .str "Liste de produits créée avec succès")]⟩ := rfl
  have h2 : (P3.createProductsList (happyStore idsW) inpC6).res =
      ⟨200, [("success", .bool true), ("eventId", .str "E1"),
             ("transactionId", .str (idsW 0)),
             ("message", .str "Liste de produits créée avec succès (transaction validée)")]⟩ := rfl
  refine ⟨h1, ?_, h2, ?_⟩
  · rw [h1]
    intro kv hkv n
    simp at hkv
    rcases hkv with h | h | h <;> subst h <;> simp
  · rw [h2]
    intro kv hkv n
    simp at hkv
    rcases hkv with h | h | h | h <;> subst h <;> simp

/-- C6 (amended).  For every valid input whose ingredients field is an array
of length at most the cap, a successful run of src/main.js stages exactly one
parent `create` plus one `bulkCreate` holding one product row per ingredient
in a single committed transaction, and part_003 stages the parent row plus a
`createRows` with one row per ingredient; the success responses carry only
`success`, `eventId` (and, in part_003, `transactionId`) and a message — no
record count. -/
theorem claim_C6_amended (ids : Nat → String) (inp : RequestInput) (d : EventDataObj)
    (xs : List Ingredient) (hv : missingData inp = false)
    (hed : inp.eventData = .obj d) (hing : d.ingredients = .array xs)
    (_hlen : xs.length ≤ 99) :
    MainJs.createProductsList (happyStore ids) inp =
        ⟨[.getDocument DATABASE_ID COLLECTION_MAIN inp.eventId.toStr,
          .createTransaction (some (ids 0)),
          .createOperationsDoc (ids 0)
            [.createDoc DATABASE_ID COLLECTION_MAIN inp.eventId.toStr
               (mkMainDoc inp.eventId.toStr d inp.contentHash inp.userId)
               (userPerms inp.userId),
             .bulkCreate DATABASE_ID COLLECTION_PRODUCTS
               (xs.enum.map fun p =>
                 mkProductRowDoc (happyStore ids).rand inp.eventId.toStr inp.userId p.1 p.2)],
          .commitTxn (ids 0)],
         ⟨200, [("success", .bool true), ("eventId", inp.eventId),
                ("message", .str "Liste de produits créée avec succès")]⟩⟩ ∧
      (xs.enum.map fun p =>
          mkProductRowDoc (happyStore ids).rand inp.eventId.toStr inp.userId p.1 p.2).length
        = xs.length ∧
      P3.createProductsList (happyStore ids) inp =
        ⟨[.getDocument DATABASE_ID COLLECTION_MAIN inp.eventId.toStr,
          .createTransaction (some (ids 0)),
          .createMainRow DATABASE_ID COLLECTION_MAIN inp.eventId.toStr
            (mkMainDoc inp.eventId.toStr d inp.contentHash inp.userId) (ids 0),
          .createRows DATABASE_ID COLLECTION_PRODUCTS
            (xs.map (mkProductRowT inp.eventId.toStr)) (ids 0),
          .commitTxn (ids 0)],
         ⟨200, [("success", .bool true), ("eventId", inp.eventId),
                ("transactionId", .str (ids 0)),
                ("message", .str "Liste de produits créée avec succès (transaction validée)")]⟩,
         none, some (ids 0)⟩ ∧
      (xs.map (mkProductRowT inp.eventId.toStr)).length = xs.length := by
  refine ⟨?_, by simp, ?_, by simp⟩
  · rw [MainJs.createProductsList]
    simp only [hv, Bool.false_eq_true, if_false, happyStore_getDoc, happyStore_newTxn,
      happyStore_stage, happyStore_commit]
    rw [MainJs.operations]
    simp [ingredientsList, hed, hing, edObj]
  · rw [P3.createProductsList]
    simp only [hv, Bool.false_eq_true, if_false, happyStore_getDoc, happyStore_newTxn,
      happyStore_stage, happyStore_commit, ingredientsList, hed, hing]
    rw [P3.p3Finish]
    simp only [happyStore_commit]
    simp [edObj]

/-- Witness for the amended C6 at the concrete 2-ingredient input. -/
theorem claim_C6_witness :
    MainJs.createProductsList (happyStore idsW) inpC6 =
        ⟨[.getDocument DATABASE_ID COLLECTION_MAIN inpC6.eventId.toStr,
          .createTransaction (some (idsW 0)),
          .createOperationsDoc (idsW 0)
            [.createDoc DATABASE_ID COLLECTION_MAIN inpC6.eventId.toStr
               (mkMainDoc inpC6.eventId.toStr edC6 inpC6.contentHash inpC6.userId)
               (userPerms inpC6.userId),
             .bulkCreate DATABASE_ID COLLECTION_PRODUCTS
               (([{}, {}] : List Ingredient).enum.map fun p =>
                 mkProductRowDoc (happyStore idsW).rand inpC6.eventId.toStr inpC6.userId p.1 p.2)],
          .commitTxn (idsW 0)],
         ⟨200, [("success", .bool true), ("eventId", inpC6.eventId),
                ("message", .str "Liste de produits créée avec succès")]⟩⟩ ∧
      (([{}, {}] : List Ingredient).enum.map fun p =>
          mkProductRowDoc (happyStore idsW).rand inpC6.eventId.toStr inpC6.userId p.1 p.2).length
        = ([{}, {}] : List Ingredient).length ∧
      P3.createProductsList (happyStore idsW) inpC6 =
        ⟨[.getDocument DATABASE_ID COLLECTION_MAIN inpC6.eventId.toStr,
          .createTransaction (some (idsW 0)),
          .createMainRow DATABASE_ID COLLECTION_MAIN inpC6.eventId.toStr
            (mkMainDoc inpC6.eventId.toStr edC6 inpC6.contentHash inpC6.userId) (idsW 0),
          .createRows DATABASE_ID COLLECTION_PRODUCTS
            (([{}, {}] : List Ingredient).map (mkProductRowT inpC6.eventId.toStr)) (idsW 0),
          .commitTxn (idsW 0)],
         ⟨200, [("success", .bool true), ("eventId", inpC6.eventId),
                ("transactionId", .str (idsW 0)),
                ("message", .str "Liste de produits créée avec succès (transaction validée)")]⟩,
         none, some (idsW 0)⟩ ∧
      (([{}, {}] : List Ingredient).map (mkProductRowT inpC6.eventId.toStr)).length
        = ([{}, {}] : List Ingredient).length :=
  claim_C6_amended idsW inpC6 edC6 [{}, {}] rfl rfl rfl (by simp)

/-! ## C7: validation before remote calls -/

/-- A batch-update payload missing `productIds`. -/
def dNoIds : BatchUpdateData :=
  { productIds := .undefined
    products := .undefined
    updateType := .str "store"
    updateData := .str "s"
    options := .undefined }

/-- A creation payload missing `contentHash`. -/
def inpNoHash : RequestInput := ⟨.str "E1", .obj edC2, .undefined, .str "U"⟩

/-- C7 (code bug).  The creation variants and part_001's handler do answer
400 before any remote call on missing inputs — but part_000's
`handleBatchUpdateProducts` is called without `res`, so its validation
`res.json(...)` raises `ReferenceError: res is not defined`, and the outer
catch turns the missing-`productIds` request into a **500** whose message is
the ReferenceError, still with no remote call made. -/
theorem claim_C7 :
    P0.mainHandler (happyStore idsW) (.str "batchUpdateProducts") dNoIds =
        ⟨[], ⟨500, [("error", .str "res is not defined")]⟩⟩ ∧
      MainJs.createProductsList (happyStore idsW) inpNoHash = ⟨[], P2.res400⟩ ∧
      P2.createProductsList (happyStore idsW) inpNoHash = ⟨[], P2.res400, none, []⟩ ∧
      P3.createProductsList (happyStore idsW) inpNoHash = ⟨[], P2.res400, none, none⟩ ∧
      P4.createProductsList (happyStore idsW) inpNoHash = ⟨[], P2.res400⟩ ∧
      P5.createProductsList (happyStore idsW) inpNoHash = ⟨[], P2.res400, none, none⟩ ∧
      P1.handleBatchUpdateProducts (happyStore idsW) dNoIds =
        ⟨[], ⟨400, [("error", .str "Missing required parameters: productIds, updateType, updateData")]⟩⟩ :=
  ⟨rfl, rfl, rfl, rfl, rfl, rfl, rfl⟩

/-! ## C8: deterministic child identifiers -/

theorem chunks100_nil {α : Type} : chunks100 ([] : List α) = [] := by
  simp [chunks100]

theorem chunks100_cons {α : Type} (x : α) (rest : List α) :
    chunks100 (x :: rest) = (x :: rest).take 100 :: chunks100 ((x :: rest).drop 100) := by
  rw [chunks100]

/-- Splitting into 100-chunks and concatenating is the identity, so
part_005's per-batch loops stage exactly one row per ingredient, in order. -/
theorem chunks100_join {α : Type} : ∀ (n : Nat) (l : List α), l.length ≤ n →
    (chunks100 l).flatten = l := by
  intro n
  induction n with
  | zero =>
    intro l hl
    have : l = [] := by
      cases l with
      | nil => rfl
      | cons x rest => simp at hl
    subst this
    simp [chunks100_nil]
  | succ n ih =>
    intro l hl
    cases l with
    | nil => simp [chunks100_nil]
    | cons x rest =>
      rw [chunks100_cons]
      have hrec := ih ((x :: rest).drop 100) (by simp [List.length_drop] at *; omega)
      rw [List.flatten_cons, hrec, List.take_append_drop]

theorem p5Batches_happy (ids : Nat → String) (eid t : String) :
    ∀ (cs : List (List Ingredient)) (st : P2.MBSt),
    P5.p5Batches (happyStore ids) eid t st cs =
      .ok ⟨st.txnIdx, st.rowIdx + (cs.map List.length).sum, st.ledger,
        st.trace ++ cs.flatten.map fun ing =>
          .createProductRow DATABASE_ID COLLECTION_PRODUCTS (mkProductRowT eid ing) t⟩ := by
  intro cs
  induction cs with
  | nil => intro st; cases st; simp [P5.p5Batches]
  | cons c rest ih =>
    intro st
    rw [P5.p5Batches]
    rw [mbRows_happy]
    dsimp only
    rw [ih]
    simp [List.append_assoc]
    omega

/-- The whole part_005 run on an all-success store, for a valid input whose
ingredients field is an array. -/
theorem p5_happy (ids : Nat → String) (inp : RequestInput) (d : EventDataObj)
    (xs : List Ingredient) (hv : missingData inp = false)
    (hed : inp.eventData = .obj d) (hing : d.ingredients = .array xs) :
    P5.createProductsList (happyStore ids) inp =
      ⟨.createTransaction (some (ids 0)) ::
        .createMainRow DATABASE_ID COLLECTION_MAIN inp.eventId.toStr
          (P5.mkMainDoc5 inp.eventId.toStr d inp.contentHash inp.userId) (ids 0) ::
        (xs.map fun ing =>
          .createProductRow DATABASE_ID COLLECTION_PRODUCTS
            (mkProductRowT inp.eventId.toStr ing) (ids 0)) ++ [.commitTxn (ids 0)],
       ⟨200, [("success", .bool true), ("eventId", inp.eventId),
              ("transactionId", .str (ids 0)),
              ("message", .str "Liste de produits créée avec succès (transaction validée)")]⟩,
       none, some (ids 0)⟩ := by
  rw [P5.createProductsList]
  simp only [hv, Bool.false_eq_true, if_false, happyStore_newTxn, happyStore_stage,
    ingredientsList, hed, hing, edObj]
  rw [p5Batches_happy]
  rw [chunks100_join xs.length xs le_rfl]
  unfold P5.p5Finish
  simp only [happyStore_commit]
  simp [List.append_assoc]

/-- C8 (confirmed).  On every successful run, each created product record's
identifier is the string concatenation of the ingredient's
`ingredientHugoUuid`, an underscore, and the parent `eventId`: this is the
`$id` of every row in src/main.js's `bulkCreate` operation dan the `rowId` of
every `createRow` call of part_005. -/
theorem claim_C8 (ids : Nat → String) (inp : RequestInput) (d : EventDataObj)
    (xs : List Ingredient) (hv : missingData inp = false)
    (hed : inp.eventData = .obj d) (hing : d.ingredients = .array xs) :
    MainJs.createProductsList (happyStore ids) inp =
        ⟨[.getDocument DATABASE_ID COLLECTION_MAIN inp.eventId.toStr,
          .createTransaction (some (ids 0)),
          .createOperationsDoc (ids 0)
            [.createDoc DATABASE_ID COLLECTION_MAIN inp.eventId.toStr
               (mkMainDoc inp.eventId.toStr d inp.contentHash inp.userId)
               (userPerms inp.userId),
             .bulkCreate DATABASE_ID COLLECTION_PRODUCTS
               (xs.enum.map fun p =>
                 mkProductRowDoc (happyStore ids).rand inp.eventId.toStr inp.userId p.1 p.2)],
          .commitTxn (ids 0)],
         ⟨200, [("success", .bool true), ("eventId", inp.eventId),
                ("message", .str "Liste de produits créée avec succès")]⟩⟩ ∧
      ((xs.enum.map fun p =>
          mkProductRowDoc (happyStore ids).rand inp.eventId.toStr inp.userId p.1 p.2).map
        ProductRow.rowId) =
        xs.map (fun ing => ing.ingredientHugoUuid.toStr ++ "_" ++ inp.eventId.toStr) ∧
      P5.createProductsList (happyStore ids) inp =
        ⟨.createTransaction (some (ids 0)) ::
          .createMainRow DATABASE_ID COLLECTION_MAIN inp.eventId.toStr
            (P5.mkMainDoc5 inp.eventId.toStr d inp.contentHash inp.userId) (ids 0) ::
          (xs.map fun ing =>
            .createProductRow DATABASE_ID COLLECTION_PRODUCTS
              (mkProductRowT inp.eventId.toStr ing) (ids 0)) ++ [.commitTxn (ids 0)],
         ⟨200, [("success", .bool true), ("eventId", inp.eventId),
                ("transactionId", .str (ids 0)),
                ("message", .str "Liste de produits créée avec succès (transaction validée)")]⟩,
         none, some (ids 0)⟩ ∧
      ((xs.map (mkProductRowT inp.eventId.toStr)).map ProductRow.rowId) =
        xs.map (fun ing => ing.ingredientHugoUuid.toStr ++ "_" ++ inp.eventId.toStr) := by
  refine ⟨?_, ?_, p5_happy ids inp d xs hv hed hing, ?_⟩
  · rw [MainJs.createProductsList]
    simp only [hv, Bool.false_eq_true, if_false, happyStore_getDoc, happyStore_newTxn,
      happyStore_stage, happyStore_commit]
    rw [MainJs.operations]
    simp [ingredientsList, hed, hing, edObj]
  · rw [List.map_map]
    have : ((fun r => r.rowId) ∘ fun p : Nat × Ingredient =>
        mkProductRowDoc (happyStore ids).rand inp.eventId.toStr inp.userId p.1 p.2) =
        (fun p : Nat × Ingredient =>
          p.2.ingredientHugoUuid.toStr ++ "_" ++ inp.eventId.toStr) := by
      funext p
      rfl
    rw [this]
    have h2 : (fun p : Nat × Ingredient =>
        p.2.ingredientHugoUuid.toStr ++ "_" ++ inp.eventId.toStr) =
        (fun ing : Ingredient => ing.ingredientHugoUuid.toStr ++ "_" ++ inp.eventId.toStr)
          ∘ Prod.snd := by
      funext p
      rfl
    rw [h2, ← List.map_map, List.enum_map_snd]
  · rw [List.map_map]
    apply List.map_congr_left
    intro ing _
    rfl

/-- The example ingredient of the spec: `ingredientHugoUuid = "A"`. -/
def ingA : Ingredient := { ingredientHugoUuid := .str "A" }

def edC8 : EventDataObj := ⟨.undefined, .undefined, .array [ingA]⟩

def inpC8 : RequestInput := ⟨.str "E1", .obj edC8, .str "h", .str "U"⟩

/-- Witness for C8 at the spec's example input: one ingredient `"A"` under
event `"E1"` yields exactly one child row whose identifier is `"A_E1"`. -/
theorem claim_C8_witness :
    (MainJs.createProductsList (happyStore idsW) inpC8 =
        ⟨[.getDocument DATABASE_ID COLLECTION_MAIN inpC8.eventId.toStr,
          .createTransaction (some (idsW 0)),
          .createOperationsDoc (idsW 0)
            [.createDoc DATABASE_ID COLLECTION_MAIN inpC8.eventId.toStr
               (mkMainDoc inpC8.eventId.toStr edC8 inpC8.contentHash inpC8.userId)
               (userPerms inpC8.userId),
             .bulkCreate DATABASE_ID COLLECTION_PRODUCTS
               (([ingA] : List Ingredient).enum.map fun p =>
                 mkProductRowDoc (happyStore idsW).rand inpC8.eventId.toStr inpC8.userId p.1 p.2)],
          .commitTxn (idsW 0)],
         ⟨200, [("success", .bool true), ("eventId", inpC8.eventId),
                ("message", .str "Liste de produits créée avec succès")]⟩⟩ ∧
      ((([ingA] : List Ingredient).enum.map fun p =>
          mkProductRowDoc (happyStore idsW).rand inpC8.eventId.toStr inpC8.userId p.1 p.2).map
        ProductRow.rowId) =
        ([ingA] : List Ingredient).map
          (fun ing => ing.ingredientHugoUuid.toStr ++ "_" ++ inpC8.eventId.toStr) ∧
      P5.createProductsList (happyStore idsW) inpC8 =
        ⟨.createTransaction (some (idsW 0)) ::
          .createMainRow DATABASE_ID COLLECTION_MAIN inpC8.eventId.toStr
            (P5.mkMainDoc5 inpC8.eventId.toStr edC8 inpC8.contentHash inpC8.userId) (idsW 0) ::
          (([ingA] : List Ingredient).map fun ing =>
            .createProductRow DATABASE_ID COLLECTION_PRODUCTS
              (mkProductRowT inpC8.eventId.toStr ing) (idsW 0)) ++ [.commitTxn (idsW 0)],
         ⟨200, [("success", .bool true), ("eventId", inpC8.eventId),
                ("transactionId", .str (idsW 0)),
                ("message", .str "Liste de produits créée avec succès (transaction validée)")]⟩,
         none, some (idsW 0)⟩ ∧
      ((([ingA] : List Ingredient).map (mkProductRowT inpC8.eventId.toStr)).map
        ProductRow.rowId) =
        ([ingA] : List Ingredient).map
          (fun ing => ing.ingredientHugoUuid.toStr ++ "_" ++ inpC8.eventId.toStr)) ∧
      (([ingA] : List Ingredient).map (mkProductRowT inpC8.eventId.toStr)).map
        ProductRow.rowId = ["A_E1"] :=
  ⟨claim_C8 idsW inpC8 edC8 [ingA] rfl rfl rfl,
   by simp [mkProductRowT, ingA, inpC8, JVal.toStr]⟩

/-! ## C9: absent or non-array ingredients -/

/-- C9 (confirmed).  For every otherwise-valid request whose
`eventData.ingredients` is absent or not an array, every creation variant
still succeeds on an all-success store, staging exactly the parent record and
zero product records. -/
theorem claim_C9 (ids : Nat → String) (inp : RequestInput) (d : EventDataObj)
    (hv : missingData inp = false) (hed : inp.eventData = .obj d)
    (hil : ingredientsList inp = none) :
    MainJs.createProductsList (happyStore ids) inp =
        ⟨[.getDocument DATABASE_ID COLLECTION_MAIN inp.eventId.toStr,
          .createTransaction (some (ids 0)),
          .createOperationsDoc (ids 0)
            [.createDoc DATABASE_ID COLLECTION_MAIN inp.eventId.toStr
               (mkMainDoc inp.eventId.toStr d inp.contentHash inp.userId)
               (userPerms inp.userId)],
          .commitTxn (ids 0)],
         ⟨200, [("success", .bool true), ("eventId", inp.eventId),
                ("message", .str "Liste de produits créée avec succès")]⟩⟩ ∧
      P4.createProductsList (happyStore ids) inp =
        ⟨[.getDocument DATABASE_ID COLLECTION_MAIN inp.eventId.toStr,
          .createTransaction (some (ids 0)),
          .createOperationsDoc (ids 0)
            [.createDoc DATABASE_ID COLLECTION_MAIN inp.eventId.toStr
               (mkMainDoc inp.eventId.toStr d inp.contentHash inp.userId)
               (userPerms inp.userId)],
          .commitTxn (ids 0)],
         ⟨200, [("success", .bool true), ("eventId", inp.eventId),
                ("message", .str "Liste de produits créée avec succès")]⟩⟩ ∧
      P3.createProductsList (happyStore ids) inp =
        ⟨[.getDocument DATABASE_ID COLLECTION_MAIN inp.eventId.toStr,
          .createTransaction (some (ids 0)),
          .createMainRow DATABASE_ID COLLECTION_MAIN inp.eventId.toStr
            (mkMainDoc inp.eventId.toStr d inp.contentHash inp.userId) (ids 0),
          .commitTxn (ids 0)],
         ⟨200, [("success", .bool true), ("eventId", inp.eventId),
                ("transactionId", .str (ids 0)),
                ("message", .str "Liste de produits créée avec succès (transaction validée)")]⟩,
         none, some (ids 0)⟩ ∧
      P2.createProductsList (happyStore ids) inp =
        ⟨[.createTransaction (some (ids 0)),
          .createMainRow DATABASE_ID COLLECTION_MAIN inp.eventId.toStr
            (mkMainDoc inp.eventId.toStr d inp.contentHash inp.userId) (ids 0),
          .commitTxn (ids 0)],
         ⟨200, [("success", .bool true), ("eventId", inp.eventId),
                ("totalTransactions", .num 1),
                ("transactionIds", .arr [.str (ids 0)]),
                ("message", .str "Liste de produits créée avec succès (multi-transactions validées)")]⟩,
         none, [ids 0]⟩ ∧
      P5.createProductsList (happyStore ids) inp =
        ⟨[.createTransaction (some (ids 0)),
          .createMainRow DATABASE_ID COLLECTION_MAIN inp.eventId.toStr
            (P5.mkMainDoc5 inp.eventId.toStr d inp.contentHash inp.userId) (ids 0),
          .commitTxn (ids 0)],
         ⟨200, [("success", .bool true), ("eventId", inp.eventId),
                ("transactionId", .str (ids 0)),
                ("message", .str "Liste de produits créée avec succès (transaction validée)")]⟩,
         none, some (ids 0)⟩ := by
  refine ⟨?_, ?_, ?_, ?_, ?_⟩
  · rw [MainJs.createProductsList]
    simp only [hv, Bool.false_eq_true, if_false, happyStore_getDoc, happyStore_newTxn,
      happyStore_stage, happyStore_commit]
    rw [MainJs.operations]
    simp [hil, hed, edObj]
  · rw [P4.createProductsList]
    simp only [hv, Bool.false_eq_true, if_false, happyStore_getDoc, happyStore_newTxn,
      happyStore_stage, happyStore_commit]
    rw [MainJs.operations]
    simp [hil, hed, edObj]
  · rw [P3.createProductsList]
    simp only [hv, Bool.false_eq_true, if_false, happyStore_getDoc, happyStore_newTxn,
      happyStore_stage, happyStore_commit, hil, hed, edObj]
    rw [P3.p3Finish]
    simp only [happyStore_commit]
    simp
  · rw [P2.createProductsList]
    simp only [hv, Bool.false_eq_true, if_false]
    rw [P2.mbMain]
    simp only [happyStore_newTxn, happyStore_stage, happyStore_commit, hil, hed, edObj]
    simp
  · rw [P5.createProductsList]
    simp only [hv, Bool.false_eq_true, if_false, happyStore_newTxn, happyStore_stage,
      hil, hed, edObj]
    unfold P5.p5Finish
    simp only [happyStore_commit]
    simp

/-- Ingredients present but not an array. -/
def edC9 : EventDataObj := ⟨.undefined, .undefined, .notArray (.str "x")⟩

def inpC9 : RequestInput := ⟨.str "E1", .obj edC9, .str "h", .str "U"⟩

/-- Witness for C9 with `ingredients` a (truthy) non-array value. -/
theorem claim_C9_witness :
    MainJs.createProductsList (happyStore idsW) inpC9 =
        ⟨[.getDocument DATABASE_ID COLLECTION_MAIN inpC9.eventId.toStr,
          .createTransaction (some (idsW 0)),
          .createOperationsDoc (idsW 0)
            [.createDoc DATABASE_ID COLLECTION_MAIN inpC9.eventId.toStr
               (mkMainDoc inpC9.eventId.toStr edC9 inpC9.contentHash inpC9.userId)
               (userPerms inpC9.userId)],
          .commitTxn (idsW 0)],
         ⟨200, [("success", .bool true), ("eventId", inpC9.eventId),
                ("message", .str "Liste de produits créée avec succès")]⟩⟩ ∧
      P4.createProductsList (happyStore idsW) inpC9 =
        ⟨[.getDocument DATABASE_ID COLLECTION_MAIN inpC9.eventId.toStr,
          .createTransaction (some (idsW 0)),
          .createOperationsDoc (idsW 0)
            [.createDoc DATABASE_ID COLLECTION_MAIN inpC9.eventId.toStr
               (mkMainDoc inpC9.eventId.toStr edC9 inpC9.contentHash inpC9.userId)
               (userPerms inpC9.userId)],
          .commitTxn (idsW 0)],
         ⟨200, [("success", .bool true), ("eventId", inpC9.eventId),
                ("message", .str "Liste de produits créée avec succès")]⟩⟩ ∧
      P3.createProductsList (happyStore idsW) inpC9 =
        ⟨[.getDocument DATABASE_ID COLLECTION_MAIN inpC9.eventId.toStr,
          .createTransaction (some (idsW 0)),
          .createMainRow DATABASE_ID COLLECTION_MAIN inpC9.eventId.toStr
            (mkMainDoc inpC9.eventId.toStr edC9 inpC9.contentHash inpC9.userId) (idsW 0),
          .commitTxn (idsW 0)],
         ⟨200, [("success", .bool true), ("eventId", inpC9.eventId),
                ("transactionId", .str (idsW 0)),
                ("message", .str "Liste de produits créée avec succès (transaction validée)")]⟩,
         none, some (idsW 0)⟩ ∧
      P2.createProductsList (happyStore idsW) inpC9 =
        ⟨[.createTransaction (some (idsW 0)),
          .createMainRow DATABASE_ID COLLECTION_MAIN inpC9.eventId.toStr
            (mkMainDoc inpC9.eventId.toStr edC9 inpC9.contentHash inpC9.userId) (idsW 0),
          .commitTxn (idsW 0)],
         ⟨200, [("success", .bool true), ("eventId", inpC9.eventId),
                ("totalTransactions", .num 1),
                ("transactionIds", .arr [.str (idsW 0)]),
                ("message", .str "Liste de produits créée avec succès (multi-transactions validées)")]⟩,
         none, [idsW 0]⟩ ∧
      P5.createProductsList (happyStore idsW) inpC9 =
        ⟨[.createTransaction (some (idsW 0)),
          .createMainRow DATABASE_ID COLLECTION_MAIN inpC9.eventId.toStr
            (P5.mkMainDoc5 inpC9.eventId.toStr edC9 inpC9.contentHash inpC9.userId) (idsW 0),
          .commitTxn (idsW 0)],
         ⟨200, [("success", .bool true), ("eventId", inpC9.eventId),
                ("transactionId", .str (idsW 0)),
                ("message", .str "Liste de produits créée avec succès (transaction validée)")]⟩,
         none, some (idsW 0)⟩ :=
  claim_C9 idsW inpC9 edC9 rfl rfl rfl

/-! ## C10: falsiness validation and empty strings -/

/-- C10 (confirmed).  The presence validation is a truthiness check: every
request in which one of the four inputs is falsy — in particular an
empty-string `eventId`, `contentHash` or `userId`, or a falsy `eventData` —
is rejected with the same 400 missing-data response as a truly absent field,
with no remote call, in every creation variant; so an empty-string field can
never reach the store. -/
theorem claim_C10 (store : Store) (inp : RequestInput)
    (h : missingData inp = true) :
    MainJs.createProductsList store inp = ⟨[], P2.res400⟩ ∧
      P2.createProductsList store inp = ⟨[], P2.res400, none, []⟩ ∧
      P3.createProductsList store inp = ⟨[], P2.res400, none, none⟩ ∧
      P4.createProductsList store inp = ⟨[], P2.res400⟩ ∧
      P5.createProductsList store inp = ⟨[], P2.res400, none, none⟩ ∧
      (∀ ed ch u, missingData ⟨.str "", ed, ch, u⟩ = true) ∧
      (∀ ei ed u, missingData ⟨ei, ed, .str "", u⟩ = true) ∧
      (∀ ei ed ch, missingData ⟨ei, ed, ch, .str ""⟩ = true) ∧
      (∀ ei ch u, missingData ⟨ei, .falsy, ch, u⟩ = true) := by
  refine ⟨?_, ?_, ?_, ?_, ?_, ?_, ?_, ?_, ?_⟩
  · rw [MainJs.createProductsList]
    simp [h]
  · rw [P2.createProductsList]
    simp [h]
  · rw [P3.createProductsList]
    simp [h]
  · rw [P4.createProductsList]
    simp [h]
  · rw [P5.createProductsList]
    simp [h]
  · intro ed ch u
    simp [missingData, JVal.truthy, String.isEmpty]
  · intro ei ed u
    simp [missingData, JVal.truthy, String.isEmpty]
  · intro ei ed ch
    simp [missingData, JVal.truthy, String.isEmpty]
  · intro ei ch u
    simp [missingData, EventDataField.truthy]

def inpC10 : RequestInput := ⟨.str "", .obj edC2, .str "h", .str "U"⟩

/-- Witness for C10 at an input whose `eventId` is the empty string. -/
theorem claim_C10_witness :
    MainJs.createProductsList (happyStore idsW) inpC10 = ⟨[], P2.res400⟩ ∧
      P2.createProductsList (happyStore idsW) inpC10 = ⟨[], P2.res400, none, []⟩ ∧
      P3.createProductsList (happyStore idsW) inpC10 = ⟨[], P2.res400, none, none⟩ ∧
      P4.createProductsList (happyStore idsW) inpC10 = ⟨[], P2.res400⟩ ∧
      P5.createProductsList (happyStore idsW) inpC10 = ⟨[], P2.res400, none, none⟩ ∧
      (∀ ed ch u, missingData ⟨.str "", ed, ch, u⟩ = true) ∧
      (∀ ei ed u, missingData ⟨ei, ed, .str "", u⟩ = true) ∧
      (∀ ei ed ch, missingData ⟨ei, ed, ch, .str ""⟩ = true) ∧
      (∀ ei ch u, missingData ⟨ei, .falsy, ch, u⟩ = true) :=
  claim_C10 (happyStore idsW) inpC10 rfl

end Enka
